import Mathlib

/-!
Verification of the c-compiler pipeline (lexer, parser, AST services,
x86_64 assembly emitter, string-pool memory subsystem) against its
natural-language specification.  The C++ sources are shallowly embedded:
C strings become `List Char` (a null `char *` is `Option.none`), machine
integers become `Nat`/`Int`, heap-returning fallible code returns
`Option`, and undefined behaviour (dereferencing a null pointer, e.g.
`strlen(NULL)`) is modelled by the `Option` monad returning `none`.
Recursive-descent routines take an explicit fuel argument; the concrete
runs below use fuel well above what the inputs need.
-/

namespace CC

/-- `string_duplicate` from util.cpp: `strncpy` of `len` bytes plus a
terminating NUL.  All call sites pass `len ≤` the source length and
sources free of interior NUL bytes, so the copy is the `len`-prefix. -/
def string_duplicate (s : List Char) (len : Nat) : List Char :=
  s.take len

/-- A slice of the source buffer: the C idiom
`string_duplicate(src + start, stop - start)`. -/
def slice (s : List Char) (start len : Nat) : List Char :=
  (s.drop start).take len

/-- token_type from lexer.hpp, constructors in the header's order (the
parser's `is_type_token` relies on the contiguous range I8..VOID). -/
inductive token_type where
  | TOKEN_NUMBER | TOKEN_FLOAT | TOKEN_IDENTIFIER | TOKEN_STRING | TOKEN_CHAR | TOKEN_BOOL
  | TOKEN_I8 | TOKEN_I16 | TOKEN_I32 | TOKEN_I64
  | TOKEN_U8 | TOKEN_U16 | TOKEN_U32 | TOKEN_U64
  | TOKEN_F32 | TOKEN_F64 | TOKEN_BOOL_TYPE | TOKEN_VOID
  | TOKEN_STRUCT | TOKEN_ENUM | TOKEN_UNION | TOKEN_RETURN | TOKEN_IF | TOKEN_ELSE
  | TOKEN_WHILE | TOKEN_FOR | TOKEN_DO | TOKEN_SWITCH | TOKEN_CASE | TOKEN_DEFAULT
  | TOKEN_BREAK | TOKEN_CONTINUE | TOKEN_CONST | TOKEN_STATIC | TOKEN_EXTERN
  | TOKEN_SIZEOF | TOKEN_TRUE | TOKEN_FALSE | TOKEN_NULL
  | TOKEN_IMPORT | TOKEN_EXPORT | TOKEN_MODULE
  | TOKEN_PLUS | TOKEN_MINUS | TOKEN_MULTIPLY | TOKEN_DIVIDE | TOKEN_MODULO
  | TOKEN_ASSIGN | TOKEN_PLUS_ASSIGN | TOKEN_MINUS_ASSIGN | TOKEN_MULTIPLY_ASSIGN
  | TOKEN_DIVIDE_ASSIGN | TOKEN_MODULO_ASSIGN | TOKEN_INCREMENT | TOKEN_DECREMENT
  | TOKEN_EQUAL | TOKEN_NOT_EQUAL | TOKEN_LESS_THAN | TOKEN_GREATER_THAN
  | TOKEN_LESS_EQUAL | TOKEN_GREATER_EQUAL
  | TOKEN_LOGICAL_AND | TOKEN_LOGICAL_OR | TOKEN_LOGICAL_NOT
  | TOKEN_BITWISE_AND | TOKEN_BITWISE_OR | TOKEN_BITWISE_XOR | TOKEN_BITWISE_NOT
  | TOKEN_LEFT_SHIFT | TOKEN_RIGHT_SHIFT
  | TOKEN_ADDRESS_OF | TOKEN_DEREFERENCE | TOKEN_ARROW | TOKEN_DOT
  | TOKEN_SEMICOLON | TOKEN_COLON | TOKEN_COMMA
  | TOKEN_LEFT_PAREN | TOKEN_RIGHT_PAREN | TOKEN_LEFT_BRACE | TOKEN_RIGHT_BRACE
  | TOKEN_LEFT_BRACKET | TOKEN_RIGHT_BRACKET | TOKEN_QUESTION
  | TOKEN_EOF | TOKEN_INVALID | TOKEN_NEWLINE
  deriving DecidableEq, Repr

/-- token from lexer.hpp.  `value` is a `char *` (`none` models NULL).
The literal payload union is flattened into the integer and boolean
fields actually read downstream; the `double` member backs no verified
claim (no floating-point lowering exists) and is omitted. -/
structure token where
  type : token_type
  value : Option (List Char)
  line : Nat
  column : Nat
  int_value : Int := 0
  bool_value : Bool := false
  deriving DecidableEq, Repr

/-- lexer from lexer.hpp. -/
structure lexer where
  source : List Char
  position : Nat
  line : Nat
  column : Nat
  length : Nat
  track_newlines : Bool
  deriving DecidableEq, Repr

def create_lexer (source : List Char) : lexer :=
  { source := source, position := 0, line := 1, column := 1,
    length := source.length, track_newlines := false }

def advance (lx : lexer) : lexer :=
  if lx.position < lx.length then
    if lx.source.getD lx.position ' ' = '\n' then
      { lx with line := lx.line + 1, column := 1, position := lx.position + 1 }
    else
      { lx with column := lx.column + 1, position := lx.position + 1 }
  else lx

def peek (lx : lexer) (offset : Nat) : Char :=
  let pos := lx.position + offset
  if pos ≥ lx.length then '\x00' else lx.source.getD pos ' '

/-- Current byte, `lexer->source[lexer->position]`. -/
def cur (lx : lexer) : Char := lx.source.getD lx.position ' '

theorem advance_source (lx : lexer) : (advance lx).source = lx.source := by
  unfold advance; split <;> (try split) <;> rfl

theorem advance_length (lx : lexer) : (advance lx).length = lx.length := by
  unfold advance; split <;> (try split) <;> rfl

theorem advance_track (lx : lexer) : (advance lx).track_newlines = lx.track_newlines := by
  unfold advance; split <;> (try split) <;> rfl

theorem advance_pos_le (lx : lexer) : lx.position ≤ (advance lx).position := by
  unfold advance; split <;> (try split) <;> simp

theorem advance_pos_of_lt (lx : lexer) (h : lx.position < lx.length) :
    (advance lx).position = lx.position + 1 := by
  unfold advance; rw [if_pos h]; split <;> rfl

/-- The loops of lexer.cpp are written with an explicit fuel argument
(every caller passes at least `length - position + 1`, which the loops
never exhaust since each iteration advances the position; a spent fuel
returns the state unchanged). -/
def skip_whitespace (fuel : Nat) (lx : lexer) : lexer :=
  match fuel with
  | 0 => lx
  | fuel + 1 =>
    if lx.position < lx.length then
      if cur lx = ' ' ∨ cur lx = '\t' ∨ cur lx = '\r' then
        skip_whitespace fuel (advance lx)
      else if cur lx = '\n' then
        if lx.track_newlines then lx else skip_whitespace fuel (advance lx)
      else lx
    else lx

def skip_line_comment_loop (fuel : Nat) (lx : lexer) : lexer :=
  match fuel with
  | 0 => lx
  | fuel + 1 =>
    if lx.position < lx.length then
      if cur lx ≠ '\n' then skip_line_comment_loop fuel (advance lx) else lx
    else lx

def skip_line_comment (fuel : Nat) (lx : lexer) : lexer :=
  skip_line_comment_loop fuel (advance (advance lx))

def skip_block_comment_loop (fuel : Nat) (lx : lexer) : lexer :=
  match fuel with
  | 0 => lx
  | fuel + 1 =>
    if lx.position + 1 < lx.length then
      if cur lx = '*' ∧ peek lx 1 = '/' then advance (advance lx)
      else skip_block_comment_loop fuel (advance lx)
    else lx

def skip_block_comment (fuel : Nat) (lx : lexer) : lexer :=
  skip_block_comment_loop fuel (advance (advance lx))

def read_digits (fuel : Nat) (lx : lexer) : lexer :=
  match fuel with
  | 0 => lx
  | fuel + 1 =>
    if lx.position < lx.length then
      if (cur lx).isDigit then read_digits fuel (advance lx) else lx
    else lx

/-- `atoll` restricted to the digit strings the scanner feeds it. -/
def atoll (s : List Char) : Int :=
  s.foldl (fun acc c => if c.isDigit then acc * 10 + (c.toNat - 48) else acc) 0

def read_number (fuel : Nat) (lx : lexer) (start_col : Nat) : token × lexer :=
  let start_pos := lx.position
  let lx := read_digits fuel lx
  let (is_float, lx) :=
    if lx.position < lx.length ∧ cur lx = '.' then
      (true, read_digits fuel (advance lx))
    else (false, lx)
  let (is_float, lx) :=
    if lx.position < lx.length ∧ (cur lx = 'e' ∨ cur lx = 'E') then
      let lx := advance lx
      let lx := if lx.position < lx.length ∧ (cur lx = '+' ∨ cur lx = '-')
                then advance lx else lx
      (true, read_digits fuel lx)
    else (is_float, lx)
  let value := string_duplicate (lx.source.drop start_pos) (lx.position - start_pos)
  ({ type := if is_float then .TOKEN_FLOAT else .TOKEN_NUMBER,
     value := some value, line := lx.line, column := start_col,
     int_value := if is_float then 0 else atoll value }, lx)

def read_string_loop (fuel : Nat) (lx : lexer) : lexer :=
  match fuel with
  | 0 => lx
  | fuel + 1 =>
    if lx.position < lx.length then
      if cur lx ≠ '"' then
        if cur lx = '\\' then
          read_string_loop fuel
            (if (advance lx).position < (advance lx).length then advance (advance lx)
             else advance lx)
        else read_string_loop fuel (advance lx)
      else lx
    else lx

def read_string (fuel : Nat) (lx : lexer) (start_col : Nat) : token × lexer :=
  let lx := advance lx
  let start_pos := lx.position
  let lx := read_string_loop fuel lx
  let value := string_duplicate (lx.source.drop start_pos) (lx.position - start_pos)
  let lx := if lx.position < lx.length then advance lx else lx
  ({ type := .TOKEN_STRING, value := some value, line := lx.line, column := start_col }, lx)

def char_escape (c : Char) : Char :=
  if c = 'n' then '\n' else if c = 't' then '\t' else if c = 'r' then '\r'
  else if c = '\\' then '\\' else if c = '\x27' then '\x27'
  else if c = '0' then '\x00' else c

def read_char (lx : lexer) (start_col : Nat) : token × lexer :=
  let lx := advance lx
  let (char_value, lx) :=
    if lx.position < lx.length ∧ cur lx ≠ '\x27' then
      if cur lx = '\\' then
        let lx := advance lx
        if lx.position < lx.length then (char_escape (cur lx), advance lx)
        else ('\x00', lx)
      else (cur lx, advance lx)
    else ('\x00', lx)
  let lx := if lx.position < lx.length ∧ cur lx = '\x27' then advance lx else lx
  ({ type := .TOKEN_CHAR, value := some [char_value], line := lx.line,
     column := start_col, int_value := char_value.toNat }, lx)

def get_keyword_type (value : List Char) : token_type :=
  if value = "i8".data then .TOKEN_I8
  else if value = "i16".data then .TOKEN_I16
  else if value = "i32".data then .TOKEN_I32
  else if value = "i64".data then .TOKEN_I64
  else if value = "u8".data then .TOKEN_U8
  else if value = "u16".data then .TOKEN_U16
  else if value = "u32".data then .TOKEN_U32
  else if value = "u64".data then .TOKEN_U64
  else if value = "f32".data then .TOKEN_F32
  else if value = "f64".data then .TOKEN_F64
  else if value = "bool".data then .TOKEN_BOOL_TYPE
  else if value = "void".data then .TOKEN_VOID
  else if value = "struct".data then .TOKEN_STRUCT
  else if value = "enum".data then .TOKEN_ENUM
  else if value = "union".data then .TOKEN_UNION
  else if value = "return".data then .TOKEN_RETURN
  else if value = "if".data then .TOKEN_IF
  else if value = "else".data then .TOKEN_ELSE
  else if value = "while".data then .TOKEN_WHILE
  else if value = "for".data then .TOKEN_FOR
  else if value = "do".data then .TOKEN_DO
  else if value = "switch".data then .TOKEN_SWITCH
  else if value = "case".data then .TOKEN_CASE
  else if value = "default".data then .TOKEN_DEFAULT
  else if value = "break".data then .TOKEN_BREAK
  else if value = "continue".data then .TOKEN_CONTINUE
  else if value = "const".data then .TOKEN_CONST
  else if value = "static".data then .TOKEN_STATIC
  else if value = "extern".data then .TOKEN_EXTERN
  else if value = "sizeof".data then .TOKEN_SIZEOF
  else if value = "true".data then .TOKEN_TRUE
  else if value = "false".data then .TOKEN_FALSE
  else if value = "null".data then .TOKEN_NULL
  else if value = "import".data then .TOKEN_IMPORT
  else if value = "export".data then .TOKEN_EXPORT
  else if value = "module".data then .TOKEN_MODULE
  else .TOKEN_IDENTIFIER

def is_valid_identifier_start (c : Char) : Bool := c.isAlpha || c = '_'

def is_valid_identifier_char (c : Char) : Bool := c.isAlphanum || c = '_'

def read_identifier_loop (fuel : Nat) (lx : lexer) : lexer :=
  match fuel with
  | 0 => lx
  | fuel + 1 =>
    if lx.position < lx.length then
      if is_valid_identifier_char (cur lx) then read_identifier_loop fuel (advance lx)
      else lx
    else lx

def read_identifier (fuel : Nat) (lx : lexer) (start_col : Nat) : token × lexer :=
  let start_pos := lx.position
  let lx := read_identifier_loop fuel lx
  let value := string_duplicate (lx.source.drop start_pos) (lx.position - start_pos)
  let ty := get_keyword_type value
  ({ type := ty, value := some value, line := lx.line, column := start_col,
     bool_value := ty = .TOKEN_TRUE }, lx)

theorem skip_whitespace_pos_le (fuel : Nat) (lx : lexer) :
    lx.position ≤ (skip_whitespace fuel lx).position := by
  induction fuel generalizing lx with
  | zero => simp [skip_whitespace]
  | succ fuel ih =>
    rw [skip_whitespace]
    repeat' split
    all_goals first
      | exact le_trans (advance_pos_le _) (ih _)
      | simp

theorem skip_whitespace_length (fuel : Nat) (lx : lexer) :
    (skip_whitespace fuel lx).length = lx.length := by
  induction fuel generalizing lx with
  | zero => simp [skip_whitespace]
  | succ fuel ih =>
    rw [skip_whitespace]
    repeat' split
    all_goals simp_all [advance_length]

theorem skip_whitespace_source (fuel : Nat) (lx : lexer) :
    (skip_whitespace fuel lx).source = lx.source := by
  induction fuel generalizing lx with
  | zero => simp [skip_whitespace]
  | succ fuel ih =>
    rw [skip_whitespace]
    repeat' split
    all_goals simp_all [advance_source]

theorem skip_whitespace_track (fuel : Nat) (lx : lexer) :
    (skip_whitespace fuel lx).track_newlines = lx.track_newlines := by
  induction fuel generalizing lx with
  | zero => simp [skip_whitespace]
  | succ fuel ih =>
    rw [skip_whitespace]
    repeat' split
    all_goals simp_all [advance_track]

theorem skip_line_comment_loop_pos_le (fuel : Nat) (lx : lexer) :
    lx.position ≤ (skip_line_comment_loop fuel lx).position := by
  induction fuel generalizing lx with
  | zero => simp [skip_line_comment_loop]
  | succ fuel ih =>
    rw [skip_line_comment_loop]
    repeat' split
    all_goals first
      | exact le_trans (advance_pos_le _) (ih _)
      | simp

theorem skip_line_comment_loop_length (fuel : Nat) (lx : lexer) :
    (skip_line_comment_loop fuel lx).length = lx.length := by
  induction fuel generalizing lx with
  | zero => simp [skip_line_comment_loop]
  | succ fuel ih =>
    rw [skip_line_comment_loop]
    repeat' split
    all_goals simp_all [advance_length]

theorem skip_line_comment_loop_source (fuel : Nat) (lx : lexer) :
    (skip_line_comment_loop fuel lx).source = lx.source := by
  induction fuel generalizing lx with
  | zero => simp [skip_line_comment_loop]
  | succ fuel ih =>
    rw [skip_line_comment_loop]
    repeat' split
    all_goals simp_all [advance_source]

theorem skip_line_comment_loop_track (fuel : Nat) (lx : lexer) :
    (skip_line_comment_loop fuel lx).track_newlines = lx.track_newlines := by
  induction fuel generalizing lx with
  | zero => simp [skip_line_comment_loop]
  | succ fuel ih =>
    rw [skip_line_comment_loop]
    repeat' split
    all_goals simp_all [advance_track]

theorem skip_block_comment_loop_pos_le (fuel : Nat) (lx : lexer) :
    lx.position ≤ (skip_block_comment_loop fuel lx).position := by
  induction fuel generalizing lx with
  | zero => simp [skip_block_comment_loop]
  | succ fuel ih =>
    rw [skip_block_comment_loop]
    repeat' split
    all_goals first
      | exact le_trans (advance_pos_le _) (advance_pos_le _)
      | exact le_trans (advance_pos_le _) (ih _)
      | simp

theorem skip_block_comment_loop_length (fuel : Nat) (lx : lexer) :
    (skip_block_comment_loop fuel lx).length = lx.length := by
  induction fuel generalizing lx with
  | zero => simp [skip_block_comment_loop]
  | succ fuel ih =>
    rw [skip_block_comment_loop]
    repeat' split
    all_goals simp_all [advance_length]

theorem skip_block_comment_loop_source (fuel : Nat) (lx : lexer) :
    (skip_block_comment_loop fuel lx).source = lx.source := by
  induction fuel generalizing lx with
  | zero => simp [skip_block_comment_loop]
  | succ fuel ih =>
    rw [skip_block_comment_loop]
    repeat' split
    all_goals simp_all [advance_source]

theorem skip_block_comment_loop_track (fuel : Nat) (lx : lexer) :
    (skip_block_comment_loop fuel lx).track_newlines = lx.track_newlines := by
  induction fuel generalizing lx with
  | zero => simp [skip_block_comment_loop]
  | succ fuel ih =>
    rw [skip_block_comment_loop]
    repeat' split
    all_goals simp_all [advance_track]

theorem read_digits_pos_le (fuel : Nat) (lx : lexer) :
    lx.position ≤ (read_digits fuel lx).position := by
  induction fuel generalizing lx with
  | zero => simp [read_digits]
  | succ fuel ih =>
    rw [read_digits]
    repeat' split
    all_goals first
      | exact le_trans (advance_pos_le _) (ih _)
      | simp

theorem read_digits_length (fuel : Nat) (lx : lexer) :
    (read_digits fuel lx).length = lx.length := by
  induction fuel generalizing lx with
  | zero => simp [read_digits]
  | succ fuel ih =>
    rw [read_digits]
    repeat' split
    all_goals simp_all [advance_length]

theorem read_digits_source (fuel : Nat) (lx : lexer) :
    (read_digits fuel lx).source = lx.source := by
  induction fuel generalizing lx with
  | zero => simp [read_digits]
  | succ fuel ih =>
    rw [read_digits]
    repeat' split
    all_goals simp_all [advance_source]

theorem read_string_loop_pos_le (fuel : Nat) (lx : lexer) :
    lx.position ≤ (read_string_loop fuel lx).position := by
  induction fuel generalizing lx with
  | zero => simp [read_string_loop]
  | succ fuel ih =>
    rw [read_string_loop]
    repeat' split
    all_goals first
      | exact le_trans (advance_pos_le _) (ih _)
      | exact le_trans (advance_pos_le _) (le_trans (advance_pos_le _) (ih _))
      | simp

theorem read_string_loop_length (fuel : Nat) (lx : lexer) :
    (read_string_loop fuel lx).length = lx.length := by
  induction fuel generalizing lx with
  | zero => simp [read_string_loop]
  | succ fuel ih =>
    rw [read_string_loop]
    repeat' split
    all_goals simp_all [advance_length]

theorem read_string_loop_source (fuel : Nat) (lx : lexer) :
    (read_string_loop fuel lx).source = lx.source := by
  induction fuel generalizing lx with
  | zero => simp [read_string_loop]
  | succ fuel ih =>
    rw [read_string_loop]
    repeat' split
    all_goals simp_all [advance_source]

theorem read_identifier_loop_pos_le (fuel : Nat) (lx : lexer) :
    lx.position ≤ (read_identifier_loop fuel lx).position := by
  induction fuel generalizing lx with
  | zero => simp [read_identifier_loop]
  | succ fuel ih =>
    rw [read_identifier_loop]
    repeat' split
    all_goals first
      | exact le_trans (advance_pos_le _) (ih _)
      | simp

theorem read_identifier_loop_length (fuel : Nat) (lx : lexer) :
    (read_identifier_loop fuel lx).length = lx.length := by
  induction fuel generalizing lx with
  | zero => simp [read_identifier_loop]
  | succ fuel ih =>
    rw [read_identifier_loop]
    repeat' split
    all_goals simp_all [advance_length]

theorem read_identifier_loop_source (fuel : Nat) (lx : lexer) :
    (read_identifier_loop fuel lx).source = lx.source := by
  induction fuel generalizing lx with
  | zero => simp [read_identifier_loop]
  | succ fuel ih =>
    rw [read_identifier_loop]
    repeat' split
    all_goals simp_all [advance_source]

/-- The non-recursive dispatch of `next_token` from lexer.cpp: the
branch chain that runs once whitespace and comments are consumed and
the lexer is known not to be at EOF.  `lx` is the post-skip state; the
local variables `c` and `next_c` are written inline as `cur lx` and
`peek lx 1`, and the token line/column fields are captured before the
branch advances, exactly as the source assigns them before the
dispatch. -/
def next_token_dispatch (fuel : Nat) (lx : lexer) : token × lexer :=
  if cur lx = '+' ∧ peek lx 1 = '+' then
      ({ type := .TOKEN_INCREMENT, value := some "++".data,
         line := lx.line, column := lx.column }, advance (advance lx))
    else if cur lx = '-' ∧ peek lx 1 = '-' then
      ({ type := .TOKEN_DECREMENT, value := some "--".data,
         line := lx.line, column := lx.column }, advance (advance lx))
    else if cur lx = '+' ∧ peek lx 1 = '=' then
      ({ type := .TOKEN_PLUS_ASSIGN, value := some "+=".data,
         line := lx.line, column := lx.column }, advance (advance lx))
    else if cur lx = '-' ∧ peek lx 1 = '=' then
      ({ type := .TOKEN_MINUS_ASSIGN, value := some "-=".data,
         line := lx.line, column := lx.column }, advance (advance lx))
    else if cur lx = '*' ∧ peek lx 1 = '=' then
      ({ type := .TOKEN_MULTIPLY_ASSIGN, value := some "*=".data,
         line := lx.line, column := lx.column }, advance (advance lx))
    else if cur lx = '/' ∧ peek lx 1 = '=' then
      ({ type := .TOKEN_DIVIDE_ASSIGN, value := some "/=".data,
         line := lx.line, column := lx.column }, advance (advance lx))
    else if cur lx = '%' ∧ peek lx 1 = '=' then
      ({ type := .TOKEN_MODULO_ASSIGN, value := some "%=".data,
         line := lx.line, column := lx.column }, advance (advance lx))
    else if cur lx = '=' ∧ peek lx 1 = '=' then
      ({ type := .TOKEN_EQUAL, value := some "==".data,
         line := lx.line, column := lx.column }, advance (advance lx))
    else if cur lx = '!' ∧ peek lx 1 = '=' then
      ({ type := .TOKEN_NOT_EQUAL, value := some "!=".data,
         line := lx.line, column := lx.column }, advance (advance lx))
    else if cur lx = '<' ∧ peek lx 1 = '=' then
      ({ type := .TOKEN_LESS_EQUAL, value := some "<=".data,
         line := lx.line, column := lx.column }, advance (advance lx))
    else if cur lx = '>' ∧ peek lx 1 = '=' then
      ({ type := .TOKEN_GREATER_EQUAL, value := some ">=".data,
         line := lx.line, column := lx.column }, advance (advance lx))
    else if cur lx = '&' ∧ peek lx 1 = '&' then
      ({ type := .TOKEN_LOGICAL_AND, value := some "&&".data,
         line := lx.line, column := lx.column }, advance (advance lx))
    else if cur lx = '|' ∧ peek lx 1 = '|' then
      ({ type := .TOKEN_LOGICAL_OR, value := some "||".data,
         line := lx.line, column := lx.column }, advance (advance lx))
    else if cur lx = '<' ∧ peek lx 1 = '<' then
      ({ type := .TOKEN_LEFT_SHIFT, value := some "<<".data,
         line := lx.line, column := lx.column }, advance (advance lx))
    else if cur lx = '>' ∧ peek lx 1 = '>' then
      ({ type := .TOKEN_RIGHT_SHIFT, value := some ">>".data,
         line := lx.line, column := lx.column }, advance (advance lx))
    else if cur lx = '-' ∧ peek lx 1 = '>' then
      ({ type := .TOKEN_ARROW, value := some "->".data,
         line := lx.line, column := lx.column }, advance (advance lx))
    else if cur lx = '"' then read_string fuel lx lx.column
    else if cur lx = '\x27' then read_char lx lx.column
    else if cur lx = '+' then
      ({ type := .TOKEN_PLUS, value := some "+".data,
         line := lx.line, column := lx.column }, advance lx)
    else if cur lx = '-' then
      ({ type := .TOKEN_MINUS, value := some "-".data,
         line := lx.line, column := lx.column }, advance lx)
    else if cur lx = '*' then
      ({ type := .TOKEN_MULTIPLY, value := some "*".data,
         line := lx.line, column := lx.column }, advance lx)
    else if cur lx = '/' then
      ({ type := .TOKEN_DIVIDE, value := some "/".data,
         line := lx.line, column := lx.column }, advance lx)
    else if cur lx = '%' then
      ({ type := .TOKEN_MODULO, value := some "%".data,
         line := lx.line, column := lx.column }, advance lx)
    else if cur lx = '=' then
      ({ type := .TOKEN_ASSIGN, value := some "=".data,
         line := lx.line, column := lx.column }, advance lx)
    else if cur lx = '<' then
      ({ type := .TOKEN_LESS_THAN, value := some "<".data,
         line := lx.line, column := lx.column }, advance lx)
    else if cur lx = '>' then
      ({ type := .TOKEN_GREATER_THAN, value := some ">".data,
         line := lx.line, column := lx.column }, advance lx)
    else if cur lx = '!' then
      ({ type := .TOKEN_LOGICAL_NOT, value := some "!".data,
         line := lx.line, column := lx.column }, advance lx)
    else if cur lx = '&' then
      ({ type := .TOKEN_BITWISE_AND, value := some "&".data,
         line := lx.line, column := lx.column }, advance lx)
    else if cur lx = '|' then
      ({ type := .TOKEN_BITWISE_OR, value := some "|".data,
         line := lx.line, column := lx.column }, advance lx)
    else if cur lx = '^' then
      ({ type := .TOKEN_BITWISE_XOR, value := some "^".data,
         line := lx.line, column := lx.column }, advance lx)
    else if cur lx = '~' then
      ({ type := .TOKEN_BITWISE_NOT, value := some "~".data,
         line := lx.line, column := lx.column }, advance lx)
    else if cur lx = '.' then
      ({ type := .TOKEN_DOT, value := some ".".data,
         line := lx.line, column := lx.column }, advance lx)
    else if cur lx = ';' then
      ({ type := .TOKEN_SEMICOLON, value := some ";".data,
         line := lx.line, column := lx.column }, advance lx)
    else if cur lx = ':' then
      ({ type := .TOKEN_COLON, value := some ":".data,
         line := lx.line, column := lx.column }, advance lx)
    else if cur lx = ',' then
      ({ type := .TOKEN_COMMA, value := some ",".data,
         line := lx.line, column := lx.column }, advance lx)
    else if cur lx = '(' then
      ({ type := .TOKEN_LEFT_PAREN, value := some "(".data,
         line := lx.line, column := lx.column }, advance lx)
    else if cur lx = ')' then
      ({ type := .TOKEN_RIGHT_PAREN, value := some ")".data,
         line := lx.line, column := lx.column }, advance lx)
    else if cur lx = '\x7b' then
      ({ type := .TOKEN_LEFT_BRACE, value := some ['\x7b'],
         line := lx.line, column := lx.column }, advance lx)
    else if cur lx = '\x7d' then
      ({ type := .TOKEN_RIGHT_BRACE, value := some ['\x7d'],
         line := lx.line, column := lx.column }, advance lx)
    else if cur lx = '[' then
      ({ type := .TOKEN_LEFT_BRACKET, value := some "[".data,
         line := lx.line, column := lx.column }, advance lx)
    else if cur lx = ']' then
      ({ type := .TOKEN_RIGHT_BRACKET, value := some "]".data,
         line := lx.line, column := lx.column }, advance lx)
    else if cur lx = '?' then
      ({ type := .TOKEN_QUESTION, value := some "?".data,
         line := lx.line, column := lx.column }, advance lx)
    else if cur lx = '\n' ∧ lx.track_newlines then
      ({ type := .TOKEN_NEWLINE, value := some "\n".data,
         line := lx.line, column := lx.column }, advance lx)
    else if (cur lx).isDigit then read_number fuel lx lx.column
    else if is_valid_identifier_start (cur lx) then read_identifier fuel lx lx.column
    else
      ({ type := .TOKEN_INVALID, value := some [cur lx],
         line := lx.line, column := lx.column }, advance lx)

/-- `next_token` from lexer.cpp: skip whitespace, handle EOF and the
two comment forms (which recurse), then dispatch.  The fuel only
bounds the comment-skipping recursion; callers pass
`source length + 1`, which can never run out (each comment consumes at
least two bytes). -/
def next_token (fuel : Nat) (lx0 : lexer) : token × lexer :=
  match fuel with
  | 0 =>
    ({ type := .TOKEN_EOF, value := some (string_duplicate [] 0),
       line := lx0.line, column := lx0.column }, lx0)
  | fuel + 1 =>
    let lx := skip_whitespace fuel lx0
    if lx.position ≥ lx.length then
      ({ type := .TOKEN_EOF, value := some (string_duplicate [] 0),
         line := lx.line, column := lx.column }, lx)
    else
    if cur lx = '/' ∧ peek lx 1 = '/' then
      next_token fuel (skip_line_comment fuel lx)
    else if cur lx = '/' ∧ peek lx 1 = '*' then
      next_token fuel (skip_block_comment fuel lx)
    else
      next_token_dispatch fuel lx

/-- node_type from ast.hpp, in header order. -/
inductive node_type where
  | NODE_PROGRAM | NODE_MODULE | NODE_IMPORT | NODE_EXPORT
  | NODE_FUNCTION | NODE_VARIABLE_DECLARATION | NODE_STRUCT | NODE_ENUM | NODE_UNION
  | NODE_PARAMETER | NODE_PARAMETER_LIST
  | NODE_TYPE | NODE_POINTER_TYPE | NODE_ARRAY_TYPE
  | NODE_BLOCK | NODE_EXPRESSION_STATEMENT | NODE_RETURN_STATEMENT | NODE_IF_STATEMENT
  | NODE_WHILE_STATEMENT | NODE_FOR_STATEMENT | NODE_DO_WHILE_STATEMENT
  | NODE_SWITCH_STATEMENT | NODE_CASE_STATEMENT | NODE_DEFAULT_STATEMENT
  | NODE_BREAK_STATEMENT | NODE_CONTINUE_STATEMENT
  | NODE_ASSIGNMENT | NODE_BINARY_OP | NODE_UNARY_OP | NODE_POSTFIX_OP | NODE_TERNARY
  | NODE_FUNCTION_CALL | NODE_ARRAY_ACCESS | NODE_MEMBER_ACCESS | NODE_SIZEOF
  | NODE_NUMBER_LITERAL | NODE_FLOAT_LITERAL | NODE_STRING_LITERAL | NODE_CHAR_LITERAL
  | NODE_BOOL_LITERAL | NODE_NULL_LITERAL
  | NODE_IDENTIFIER | NODE_ENUM_VALUE
  | NODE_CAST | NODE_TYPE_CONVERSION
  deriving DecidableEq, Repr

/-- ast_node from ast.hpp.  The children array (count/capacity) is the
children list; the metadata union backs no verified claim for
parser-built nodes (the parser only ever zero-initialises it) and is
omitted here; the emitter-side integer payload is carried separately
where needed. -/
inductive ast_node where
  | mk (type : node_type) (value : Option (List Char)) (children : List ast_node)
      (int_value : Int)

def ast_node.type : ast_node → node_type
  | .mk t _ _ _ => t

def ast_node.value : ast_node → Option (List Char)
  | .mk _ v _ _ => v

def ast_node.children : ast_node → List ast_node
  | .mk _ _ c _ => c

/-- `node->data.literal.int_value`.  The metadata union is flattened to
the one member the emitter reads (`generate_printf`); `create_node`
zeroes the union and this parser never writes it. -/
def ast_node.int_value : ast_node → Int
  | .mk _ _ _ i => i

def ast_node.child_count (n : ast_node) : Nat := n.children.length

/-- `node->value = v` (plain field store). -/
def ast_node.set_value (n : ast_node) (v : Option (List Char)) : ast_node :=
  .mk n.type v n.children n.int_value

theorem sizeOf_child_lt (n : ast_node) (c : ast_node) (h : c ∈ n.children) :
    sizeOf (some c : Option ast_node) < sizeOf (some n : Option ast_node) := by
  have h1 := List.sizeOf_lt_of_mem h
  cases n with
  | mk t v ch iv => simp_all [ast_node.children]; omega

def create_node (ty : node_type) : ast_node :=
  .mk ty none [] 0

/-- add_child from ast.cpp: a NULL parent or NULL child makes it a
silent no-op (the guard `if (!parent || !child) return;`); otherwise the
child pointer is appended to the grown children array. -/
def add_child (parent : ast_node) (child : Option ast_node) : ast_node :=
  match child with
  | none => parent
  | some c => .mk parent.type parent.value (parent.children ++ [c]) parent.int_value

/-- validate_ast from ast.cpp: NULL fails; children are validated
recursively; then the per-kind arity switch runs.  (The NULL test of
the C function is hoisted into the `Option` wrapper `validate_ast`;
children stored by `add_child` are never NULL, so the recursive calls
go straight to `validate_node`.) -/
def arity_ok (ty : node_type) (child_count : Nat) : Bool :=
  match ty with
  | .NODE_FUNCTION => decide (2 ≤ child_count)
  | .NODE_BINARY_OP => decide (child_count = 2)
  | .NODE_UNARY_OP => decide (child_count = 1)
  | .NODE_IF_STATEMENT => decide (2 ≤ child_count ∧ child_count ≤ 3)
  | .NODE_WHILE_STATEMENT => decide (child_count = 2)
  | .NODE_FOR_STATEMENT => decide (3 ≤ child_count ∧ child_count ≤ 4)
  | _ => true

mutual

def validate_node : ast_node → Bool
  | .mk ty _ ch _ => validate_children ch && arity_ok ty ch.length

def validate_children : List ast_node → Bool
  | [] => true
  | c :: rest => validate_node c && validate_children rest

end

def validate_ast : Option ast_node → Bool
  | none => false
  | some n => validate_node n

/-- parser from parser.hpp.  The C struct holds a `struct lexer *`; the
speculative save/restore in `parse_declaration` copies the pointed-to
lexer by value, which the embedded by-value field models directly. -/
structure parser where
  lex : lexer
  current_token : token
  error_count : Nat
  panic_mode : Bool

/-- previous_token from parser.cpp: a stub that ignores the parser and
returns `{TOKEN_INVALID, NULL, 0, 0}`. -/
def previous_token (_p : parser) : token :=
  { type := .TOKEN_INVALID, value := none, line := 0, column := 0 }

/-- parser_error_at_current: in panic mode it is a no-op; otherwise it
sets panic mode and bumps the error count.  The diagnostic text goes to
stderr and is not otherwise observable, so the message content is
ignored here. -/
def parser_error_at_current (p : parser) (_message : List Char) : parser :=
  if p.panic_mode then p
  else { p with panic_mode := true, error_count := p.error_count + 1 }

def parser_error (p : parser) (message : List Char) : parser :=
  parser_error_at_current p message

/-- free_token: frees the lexeme and nulls the field. -/
def free_token (tok : token) : token :=
  { tok with value := none }

/-- copy_token: shallow copy with a duplicated lexeme. -/
def copy_token (tok : token) : token :=
  match tok.value with
  | some v => { tok with value := some (string_duplicate v v.length) }
  | none => tok

/-- parser_advance: the old token is freed and replaced by the next
one; an INVALID token immediately reports an error. -/
def parser_advance (p : parser) : parser :=
  let (t, lx) := next_token (p.lex.length + 1) p.lex
  let p := { p with lex := lx, current_token := t }
  if p.current_token.type = .TOKEN_INVALID then
    parser_error_at_current p "Invalid token".data
  else p

def check (p : parser) (ty : token_type) : Bool :=
  p.current_token.type = ty

def match_tok (p : parser) (ty : token_type) : Bool × parser :=
  if check p ty then (true, parser_advance p) else (false, p)

/-- A short-circuit chain `match(p,t1) || match(p,t2) || …`: a failed
`match` leaves the parser untouched, so trying the kinds in order is
exactly the C expression. -/
def match_any (p : parser) : List token_type → Bool × parser
  | [] => (false, p)
  | t :: ts =>
    let (b, p') := match_tok p t
    if b then (true, p') else match_any p ts

def consume (p : parser) (expected : token_type) : Bool × parser :=
  if p.current_token.type = expected then (true, parser_advance p)
  else (false, parser_error_at_current p "Expected token".data)

def is_at_end (p : parser) : Bool :=
  p.current_token.type = .TOKEN_EOF

/-- is_type_token relies on I8..VOID being contiguous in the enum. -/
def is_type_token (ty : token_type) : Bool :=
  (token_type.TOKEN_I8.toCtorIdx ≤ ty.toCtorIdx ∧
   ty.toCtorIdx ≤ token_type.TOKEN_VOID.toCtorIdx) ∨
  ty = .TOKEN_STRUCT ∨ ty = .TOKEN_ENUM ∨ ty = .TOKEN_UNION

def create_parser_state (lx : lexer) : parser :=
  let (t, lx') := next_token (lx.length + 1) lx
  { lex := lx', current_token := t, error_count := 0, panic_mode := false }

/-- `string_duplicate(x, strlen(x))` on a possibly-NULL `char *`.
`strlen(NULL)` dereferences a null pointer — undefined behaviour — so
the whole run aborts (`none`). -/
def dup_cstr : Option (List Char) → Option (List Char)
  | none => none
  | some s => some (string_duplicate s s.length)

/-- A NULL-pointer dereference of an `ast_node *` (undefined
behaviour aborts the run). -/
def deref_node : Option ast_node → Option ast_node
  | none => none
  | some n => some n

/-- Result of a node-returning parser routine: the outer `Option` is
the undefined-behaviour monad (a crash aborts the run); the inner
`Option ast_node` is the returned `ast_node *` (NULL on error). -/
abbrev PRes := Option (Option ast_node × parser)

def synchronize_loop (fuel : Nat) (p : parser) : Option parser :=
  match fuel with
  | 0 => none
  | fuel + 1 =>
    if p.current_token.type ≠ .TOKEN_EOF then
      if (previous_token p).type = .TOKEN_SEMICOLON then some p
      else
        match p.current_token.type with
        | .TOKEN_STRUCT | .TOKEN_ENUM | .TOKEN_UNION | .TOKEN_FOR
        | .TOKEN_IF | .TOKEN_WHILE | .TOKEN_RETURN => some p
        | _ => synchronize_loop fuel (parser_advance p)
    else some p

def synchronize (fuel : Nat) (p : parser) : Option parser :=
  synchronize_loop fuel { p with panic_mode := false }

def parse_import_statement (p : parser) : PRes :=
  if ¬ check p .TOKEN_STRING ∧ ¬ check p .TOKEN_IDENTIFIER then
    some (none, parser_error_at_current p "Expected module name".data)
  else do
    let module_name ← dup_cstr p.current_token.value
    let p := parser_advance p
    let import_node := (create_node .NODE_IMPORT).set_value (some module_name)
    let (_, p) := consume p .TOKEN_SEMICOLON
    some (some import_node, p)

def parse_module_declaration (p : parser) : PRes :=
  if ¬ check p .TOKEN_IDENTIFIER then
    some (none, parser_error_at_current p "Expected module name".data)
  else do
    let module_name ← dup_cstr p.current_token.value
    let p := parser_advance p
    let module_node := (create_node .NODE_MODULE).set_value (some module_name)
    let (_, p) := consume p .TOKEN_SEMICOLON
    some (some module_node, p)

def parse_break_statement (p : parser) : PRes :=
  let (_, p) := consume p .TOKEN_SEMICOLON
  some (some (create_node .NODE_BREAK_STATEMENT), p)

def parse_continue_statement (p : parser) : PRes :=
  let (_, p) := consume p .TOKEN_SEMICOLON
  some (some (create_node .NODE_CONTINUE_STATEMENT), p)

mutual

def parse (fuel : Nat) (p : parser) : PRes :=
  match fuel with
  | 0 => none
  | fuel + 1 => parse_toplevel_loop fuel (create_node .NODE_PROGRAM) p

def parse_toplevel_loop (fuel : Nat) (program : ast_node) (p : parser) : PRes :=
  match fuel with
  | 0 => none
  | fuel + 1 =>
    if ¬ is_at_end p then do
      let p ← if p.panic_mode then synchronize fuel p else some p
      let (decl, p) ← parse_declaration fuel p
      let program := if decl.isSome then add_child program decl else program
      parse_toplevel_loop fuel program p
    else some (some program, p)

def parse_declaration (fuel : Nat) (p : parser) : PRes :=
  match fuel with
  | 0 => none
  | fuel + 1 =>
    let (m, p) := match_tok p .TOKEN_MODULE
    if m then parse_module_declaration p else
    let (m, p) := match_tok p .TOKEN_IMPORT
    if m then parse_import_statement p else
    let (m, p) := match_tok p .TOKEN_EXPORT
    if m then parse_export_statement fuel p else
    let (m, p) := match_tok p .TOKEN_STRUCT
    if m then parse_struct_declaration fuel p else
    let (m, p) := match_tok p .TOKEN_ENUM
    if m then parse_enum_declaration fuel p else
    let (m, p) := match_tok p .TOKEN_UNION
    if m then parse_union_declaration fuel p else
    if is_type_token p.current_token.type then do
      -- speculative look-ahead: save the lexer by value and copy the token
      let saved_lexer := p.lex
      let saved_token := copy_token p.current_token
      let (_ty, p1) ← parse_type fuel p
      if check p1 .TOKEN_IDENTIFIER then
        let p2 := parser_advance p1
        if check p2 .TOKEN_LEFT_PAREN then
          parse_function_declaration fuel
            { p2 with lex := saved_lexer, current_token := saved_token }
        else
          parse_variable_declaration fuel
            { p2 with lex := saved_lexer, current_token := saved_token }
      else
        parse_variable_declaration fuel
          { p1 with lex := saved_lexer, current_token := saved_token }
    else parse_statement fuel p

def parse_variable_declaration (fuel : Nat) (p : parser) : PRes :=
  match fuel with
  | 0 => none
  | fuel + 1 => do
    let (type_node, p) ← parse_type fuel p
    match type_node with
    | none => some (none, p)
    | some type_node =>
      if ¬ check p .TOKEN_IDENTIFIER then
        -- free_node(type_node); the freed node is simply not used
        some (none, parser_error_at_current p "Expected variable name".data)
      else do
        let name ← dup_cstr p.current_token.value
        let p := parser_advance p
        let decl := (create_node .NODE_VARIABLE_DECLARATION).set_value (some name)
        let decl := add_child decl (some type_node)
        let (m, p) := match_tok p .TOKEN_ASSIGN
        let (decl, p) ←
          if m then do
            let (init, p) ← parse_expression fuel p
            pure (if init.isSome then add_child decl init else decl, p)
          else pure (decl, p)
        let (_, p) := consume p .TOKEN_SEMICOLON
        some (some decl, p)

def parse_function_declaration (fuel : Nat) (p : parser) : PRes :=
  match fuel with
  | 0 => none
  | fuel + 1 => do
    let (return_type, p) ← parse_type fuel p
    match return_type with
    | none => some (none, p)
    | some return_type =>
      if ¬ check p .TOKEN_IDENTIFIER then
        some (none, parser_error_at_current p "Expected function name".data)
      else do
        let name ← dup_cstr p.current_token.value
        let p := parser_advance p
        let function := (create_node .NODE_FUNCTION).set_value (some name)
        let function := add_child function (some return_type)
        let (_, p) := consume p .TOKEN_LEFT_PAREN
        let (params, p) ← parse_parameter_list fuel p
        let function := if params.isSome then add_child function params else function
        let (_, p) := consume p .TOKEN_RIGHT_PAREN
        let (body, p) ← parse_block fuel p
        let function := if body.isSome then add_child function body else function
        some (some function, p)

def parse_struct_declaration (fuel : Nat) (p : parser) : PRes :=
  match fuel with
  | 0 => none
  | fuel + 1 =>
    if ¬ check p .TOKEN_IDENTIFIER then
      some (none, parser_error_at_current p "Expected struct name".data)
    else do
      let name ← dup_cstr p.current_token.value
      let p := parser_advance p
      let struct_node := (create_node .NODE_STRUCT).set_value (some name)
      let (_, p) := consume p .TOKEN_LEFT_BRACE
      let (struct_node, p) ← parse_fields_loop fuel struct_node p
      let (_, p) := consume p .TOKEN_RIGHT_BRACE
      some (some struct_node, p)

def parse_fields_loop (fuel : Nat) (node : ast_node) (p : parser) :
    Option (ast_node × parser) :=
  match fuel with
  | 0 => none
  | fuel + 1 =>
    if ¬ check p .TOKEN_RIGHT_BRACE ∧ ¬ is_at_end p then do
      let (field, p) ← parse_variable_declaration fuel p
      let node := if field.isSome then add_child node field else node
      parse_fields_loop fuel node p
    else some (node, p)

def parse_enum_declaration (fuel : Nat) (p : parser) : PRes :=
  match fuel with
  | 0 => none
  | fuel + 1 =>
    if ¬ check p .TOKEN_IDENTIFIER then
      some (none, parser_error_at_current p "Expected enum name".data)
    else do
      let name ← dup_cstr p.current_token.value
      let p := parser_advance p
      let enum_node := (create_node .NODE_ENUM).set_value (some name)
      let (_, p) := consume p .TOKEN_LEFT_BRACE
      let (enum_node, p) ← parse_enum_values_loop fuel enum_node p
      let (_, p) := consume p .TOKEN_RIGHT_BRACE
      some (some enum_node, p)

def parse_enum_values_loop (fuel : Nat) (enum_node : ast_node) (p : parser) :
    Option (ast_node × parser) :=
  match fuel with
  | 0 => none
  | fuel + 1 =>
    if ¬ check p .TOKEN_RIGHT_BRACE ∧ ¬ is_at_end p then
      if ¬ check p .TOKEN_IDENTIFIER then
        some (enum_node, parser_error_at_current p "Expected enum value name".data)
      else do
        let value_name ← dup_cstr p.current_token.value
        let p := parser_advance p
        let enum_value := (create_node .NODE_ENUM_VALUE).set_value (some value_name)
        let (m, p) := match_tok p .TOKEN_ASSIGN
        let (enum_value, p) ←
          if m then do
            let (value_expr, p) ← parse_expression fuel p
            pure (if value_expr.isSome then add_child enum_value value_expr else enum_value, p)
          else pure (enum_value, p)
        let enum_node := add_child enum_node (some enum_value)
        let (m, p) := match_tok p .TOKEN_COMMA
        if ¬ m then some (enum_node, p)
        else parse_enum_values_loop fuel enum_node p
    else some (enum_node, p)

def parse_union_declaration (fuel : Nat) (p : parser) : PRes :=
  match fuel with
  | 0 => none
  | fuel + 1 =>
    if ¬ check p .TOKEN_IDENTIFIER then
      some (none, parser_error_at_current p "Expected union name".data)
    else do
      let name ← dup_cstr p.current_token.value
      let p := parser_advance p
      let union_node := (create_node .NODE_UNION).set_value (some name)
      let (_, p) := consume p .TOKEN_LEFT_BRACE
      let (union_node, p) ← parse_fields_loop fuel union_node p
      let (_, p) := consume p .TOKEN_RIGHT_BRACE
      some (some union_node, p)

def parse_type (fuel : Nat) (p : parser) : PRes :=
  match fuel with
  | 0 => none
  | fuel + 1 => parse_type_specifier fuel p

def parse_type_specifier (fuel : Nat) (p : parser) : PRes :=
  match fuel with
  | 0 => none
  | fuel + 1 => do
    let (type_node, p) ←
      match p.current_token.type with
      | .TOKEN_I8 | .TOKEN_I16 | .TOKEN_I32 | .TOKEN_I64
      | .TOKEN_U8 | .TOKEN_U16 | .TOKEN_U32 | .TOKEN_U64
      | .TOKEN_F32 | .TOKEN_F64 | .TOKEN_BOOL_TYPE | .TOKEN_VOID
      | .TOKEN_IDENTIFIER => do
        let v ← dup_cstr p.current_token.value
        let type_node := (create_node .NODE_TYPE).set_value (some v)
        some (some type_node, parser_advance p)
      | .TOKEN_STRUCT | .TOKEN_ENUM | .TOKEN_UNION => do
        let v ← dup_cstr p.current_token.value
        let type_node := (create_node .NODE_TYPE).set_value (some v)
        let p := parser_advance p
        if check p .TOKEN_IDENTIFIER then do
          -- sprintf(combined, "%s %s", type_node->value, current->value)
          let cv ← p.current_token.value
          let combined := v ++ ' ' :: cv
          let type_node := type_node.set_value (some combined)
          some (some type_node, parser_advance p)
        else some (some type_node, p)
      | _ =>
        some ((none : Option ast_node),
              parser_error_at_current p "Expected type specifier".data)
    match type_node with
    | none => some (none, p)
    | some tn => parse_pointer_loop fuel tn p

def parse_pointer_loop (fuel : Nat) (type_node : ast_node) (p : parser) : PRes :=
  match fuel with
  | 0 => none
  | fuel + 1 =>
    let (m, p) := match_tok p .TOKEN_MULTIPLY
    if m then
      let pointer_type := add_child (create_node .NODE_POINTER_TYPE) (some type_node)
      parse_pointer_loop fuel pointer_type p
    else some (some type_node, p)

def parse_statement (fuel : Nat) (p : parser) : PRes :=
  match fuel with
  | 0 => none
  | fuel + 1 =>
    let (m, p) := match_tok p .TOKEN_IF
    if m then parse_if_statement fuel p else
    let (m, p) := match_tok p .TOKEN_WHILE
    if m then parse_while_statement fuel p else
    let (m, p) := match_tok p .TOKEN_FOR
    if m then parse_for_statement fuel p else
    let (m, p) := match_tok p .TOKEN_DO
    if m then parse_do_while_statement fuel p else
    let (m, p) := match_tok p .TOKEN_SWITCH
    if m then parse_switch_statement fuel p else
    let (m, p) := match_tok p .TOKEN_RETURN
    if m then parse_return_statement fuel p else
    let (m, p) := match_tok p .TOKEN_BREAK
    if m then parse_break_statement p else
    let (m, p) := match_tok p .TOKEN_CONTINUE
    if m then parse_continue_statement p else
    let (m, p) := match_tok p .TOKEN_LEFT_BRACE
    if m then parse_block fuel p else
    parse_expression_statement fuel p

def parse_block (fuel : Nat) (p : parser) : PRes :=
  match fuel with
  | 0 => none
  | fuel + 1 => do
    let (block, p) ← parse_block_loop fuel (create_node .NODE_BLOCK) p
    let (_, p) := consume p .TOKEN_RIGHT_BRACE
    some (some block, p)

def parse_block_loop (fuel : Nat) (block : ast_node) (p : parser) :
    Option (ast_node × parser) :=
  match fuel with
  | 0 => none
  | fuel + 1 =>
    if ¬ check p .TOKEN_RIGHT_BRACE ∧ ¬ is_at_end p then do
      let (stmt, p) ← parse_statement fuel p
      let block := if stmt.isSome then add_child block stmt else block
      parse_block_loop fuel block p
    else some (block, p)

def parse_if_statement (fuel : Nat) (p : parser) : PRes :=
  match fuel with
  | 0 => none
  | fuel + 1 => do
    let (_, p) := consume p .TOKEN_LEFT_PAREN
    let (condition, p) ← parse_expression fuel p
    let (_, p) := consume p .TOKEN_RIGHT_PAREN
    let (then_stmt, p) ← parse_statement fuel p
    let if_node := create_node .NODE_IF_STATEMENT
    let if_node := add_child if_node condition
    let if_node := add_child if_node then_stmt
    let (m, p) := match_tok p .TOKEN_ELSE
    if m then do
      let (else_stmt, p) ← parse_statement fuel p
      some (some (add_child if_node else_stmt), p)
    else some (some if_node, p)

def parse_while_statement (fuel : Nat) (p : parser) : PRes :=
  match fuel with
  | 0 => none
  | fuel + 1 => do
    let (_, p) := consume p .TOKEN_LEFT_PAREN
    let (condition, p) ← parse_expression fuel p
    let (_, p) := consume p .TOKEN_RIGHT_PAREN
    let (body, p) ← parse_statement fuel p
    let while_node := create_node .NODE_WHILE_STATEMENT
    let while_node := add_child while_node condition
    let while_node := add_child while_node body
    some (some while_node, p)

def parse_for_statement (fuel : Nat) (p : parser) : PRes :=
  match fuel with
  | 0 => none
  | fuel + 1 => do
    let (_, p) := consume p .TOKEN_LEFT_PAREN
    let for_node := create_node .NODE_FOR_STATEMENT
    -- initializer (optional)
    let (for_node, p) ←
      if ¬ check p .TOKEN_SEMICOLON then
        if is_type_token p.current_token.type then do
          let (d, p) ← parse_variable_declaration fuel p
          pure (add_child for_node d, p)
        else do
          let (d, p) ← parse_expression_statement fuel p
          pure (add_child for_node d, p)
      else do
        let (_, p) := consume p .TOKEN_SEMICOLON
        pure (add_child for_node none, p)  -- no initializer
    -- condition (optional)
    let (for_node, p) ←
      if ¬ check p .TOKEN_SEMICOLON then do
        let (c, p) ← parse_expression fuel p
        pure (add_child for_node c, p)
      else pure (add_child for_node none, p)  -- no condition
    let (_, p) := consume p .TOKEN_SEMICOLON
    -- increment (optional)
    let (for_node, p) ←
      if ¬ check p .TOKEN_RIGHT_PAREN then do
        let (u, p) ← parse_expression fuel p
        pure (add_child for_node u, p)
      else pure (add_child for_node none, p)  -- no increment
    let (_, p) := consume p .TOKEN_RIGHT_PAREN
    let (body, p) ← parse_statement fuel p
    some (some (add_child for_node body), p)

def parse_return_statement (fuel : Nat) (p : parser) : PRes :=
  match fuel with
  | 0 => none
  | fuel + 1 => do
    let ret := create_node .NODE_RETURN_STATEMENT
    let (ret, p) ←
      if ¬ check p .TOKEN_SEMICOLON then do
        let (expr, p) ← parse_expression fuel p
        pure (add_child ret expr, p)
      else pure (ret, p)
    let (_, p) := consume p .TOKEN_SEMICOLON
    some (some ret, p)

def parse_expression_statement (fuel : Nat) (p : parser) : PRes :=
  match fuel with
  | 0 => none
  | fuel + 1 => do
    let (expr, p) ← parse_expression fuel p
    let (_, p) := consume p .TOKEN_SEMICOLON
    let stmt := create_node .NODE_EXPRESSION_STATEMENT
    some (some (add_child stmt expr), p)

def parse_expression (fuel : Nat) (p : parser) : PRes :=
  match fuel with
  | 0 => none
  | fuel + 1 => parse_assignment fuel p

def parse_assignment (fuel : Nat) (p : parser) : PRes :=
  match fuel with
  | 0 => none
  | fuel + 1 => do
    let (expr, p) ← parse_ternary fuel p
    let (m, p) := match_any p
      [ .TOKEN_ASSIGN, .TOKEN_PLUS_ASSIGN, .TOKEN_MINUS_ASSIGN,
        .TOKEN_MULTIPLY_ASSIGN, .TOKEN_DIVIDE_ASSIGN, .TOKEN_MODULO_ASSIGN]
    if m then do
      let op := previous_token p
      let (right, p) ← parse_assignment fuel p
      let assign := create_node .NODE_ASSIGNMENT
      let v ← dup_cstr op.value
      let assign := assign.set_value (some v)
      let assign := add_child assign expr
      let assign := add_child assign right
      some (some assign, p)
    else some (expr, p)

def parse_ternary (fuel : Nat) (p : parser) : PRes :=
  match fuel with
  | 0 => none
  | fuel + 1 => do
    let (expr, p) ← parse_logical_or fuel p
    let (m, p) := match_tok p .TOKEN_QUESTION
    if m then do
      let (then_expr, p) ← parse_expression fuel p
      let (_, p) := consume p .TOKEN_COLON
      let (else_expr, p) ← parse_ternary fuel p
      let ternary := create_node .NODE_TERNARY
      let ternary := add_child ternary expr
      let ternary := add_child ternary then_expr
      let ternary := add_child ternary else_expr
      some (some ternary, p)
    else some (expr, p)

def parse_logical_or (fuel : Nat) (p : parser) : PRes :=
  match fuel with
  | 0 => none
  | fuel + 1 => do
    let (expr, p) ← parse_logical_and fuel p
    parse_logical_or_loop fuel expr p

/-- `while (match(||)) { op = previous_token; right =
parse_logical_and; … }` -/
def parse_logical_or_loop (fuel : Nat) (expr : Option ast_node) (p : parser) : PRes :=
  match fuel with
  | 0 => none
  | fuel + 1 =>
    let (m, p) := match_any p [ .TOKEN_LOGICAL_OR]
    if m then do
      let op := previous_token p
      let (right, p) ← parse_logical_and fuel p
      let binary := create_node .NODE_BINARY_OP
      let v ← dup_cstr op.value
      let binary := binary.set_value (some v)
      let binary := add_child binary expr
      let binary := add_child binary right
      parse_logical_or_loop fuel (some binary) p
    else some (expr, p)

def parse_logical_and (fuel : Nat) (p : parser) : PRes :=
  match fuel with
  | 0 => none
  | fuel + 1 => do
    let (expr, p) ← parse_bitwise_or fuel p
    parse_logical_and_loop fuel expr p

/-- `while (match(&&)) { op = previous_token; right =
parse_bitwise_or; … }` -/
def parse_logical_and_loop (fuel : Nat) (expr : Option ast_node) (p : parser) : PRes :=
  match fuel with
  | 0 => none
  | fuel + 1 =>
    let (m, p) := match_any p [ .TOKEN_LOGICAL_AND]
    if m then do
      let op := previous_token p
      let (right, p) ← parse_bitwise_or fuel p
      let binary := create_node .NODE_BINARY_OP
      let v ← dup_cstr op.value
      let binary := binary.set_value (some v)
      let binary := add_child binary expr
      let binary := add_child binary right
      parse_logical_and_loop fuel (some binary) p
    else some (expr, p)

def parse_bitwise_or (fuel : Nat) (p : parser) : PRes :=
  match fuel with
  | 0 => none
  | fuel + 1 => do
    let (expr, p) ← parse_bitwise_xor fuel p
    parse_bitwise_or_loop fuel expr p

/-- `while (match(|)) { op = previous_token; right =
parse_bitwise_xor; … }` -/
def parse_bitwise_or_loop (fuel : Nat) (expr : Option ast_node) (p : parser) : PRes :=
  match fuel with
  | 0 => none
  | fuel + 1 =>
    let (m, p) := match_any p [ .TOKEN_BITWISE_OR]
    if m then do
      let op := previous_token p
      let (right, p) ← parse_bitwise_xor fuel p
      let binary := create_node .NODE_BINARY_OP
      let v ← dup_cstr op.value
      let binary := binary.set_value (some v)
      let binary := add_child binary expr
      let binary := add_child binary right
      parse_bitwise_or_loop fuel (some binary) p
    else some (expr, p)

def parse_bitwise_xor (fuel : Nat) (p : parser) : PRes :=
  match fuel with
  | 0 => none
  | fuel + 1 => do
    let (expr, p) ← parse_bitwise_and fuel p
    parse_bitwise_xor_loop fuel expr p

/-- `while (match(^)) { op = previous_token; right =
parse_bitwise_and; … }` -/
def parse_bitwise_xor_loop (fuel : Nat) (expr : Option ast_node) (p : parser) : PRes :=
  match fuel with
  | 0 => none
  | fuel + 1 =>
    let (m, p) := match_any p [ .TOKEN_BITWISE_XOR]
    if m then do
      let op := previous_token p
      let (right, p) ← parse_bitwise_and fuel p
      let binary := create_node .NODE_BINARY_OP
      let v ← dup_cstr op.value
      let binary := binary.set_value (some v)
      let binary := add_child binary expr
      let binary := add_child binary right
      parse_bitwise_xor_loop fuel (some binary) p
    else some (expr, p)

def parse_bitwise_and (fuel : Nat) (p : parser) : PRes :=
  match fuel with
  | 0 => none
  | fuel + 1 => do
    let (expr, p) ← parse_equality fuel p
    parse_bitwise_and_loop fuel expr p

/-- `while (match(&)) { op = previous_token; right =
parse_equality; … }` -/
def parse_bitwise_and_loop (fuel : Nat) (expr : Option ast_node) (p : parser) : PRes :=
  match fuel with
  | 0 => none
  | fuel + 1 =>
    let (m, p) := match_any p [ .TOKEN_BITWISE_AND]
    if m then do
      let op := previous_token p
      let (right, p) ← parse_equality fuel p
      let binary := create_node .NODE_BINARY_OP
      let v ← dup_cstr op.value
      let binary := binary.set_value (some v)
      let binary := add_child binary expr
      let binary := add_child binary right
      parse_bitwise_and_loop fuel (some binary) p
    else some (expr, p)

def parse_equality (fuel : Nat) (p : parser) : PRes :=
  match fuel with
  | 0 => none
  | fuel + 1 => do
    let (expr, p) ← parse_relational fuel p
    parse_equality_loop fuel expr p

/-- `while (match(== or !=)) { op = previous_token; right =
parse_relational; … }` -/
def parse_equality_loop (fuel : Nat) (expr : Option ast_node) (p : parser) : PRes :=
  match fuel with
  | 0 => none
  | fuel + 1 =>
    let (m, p) := match_any p [ .TOKEN_EQUAL, .TOKEN_NOT_EQUAL]
    if m then do
      let op := previous_token p
      let (right, p) ← parse_relational fuel p
      let binary := create_node .NODE_BINARY_OP
      let v ← dup_cstr op.value
      let binary := binary.set_value (some v)
      let binary := add_child binary expr
      let binary := add_child binary right
      parse_equality_loop fuel (some binary) p
    else some (expr, p)

def parse_relational (fuel : Nat) (p : parser) : PRes :=
  match fuel with
  | 0 => none
  | fuel + 1 => do
    let (expr, p) ← parse_shift fuel p
    parse_relational_loop fuel expr p

/-- `while (match(relational ops)) { op = previous_token; right =
parse_shift; … }` -/
def parse_relational_loop (fuel : Nat) (expr : Option ast_node) (p : parser) : PRes :=
  match fuel with
  | 0 => none
  | fuel + 1 =>
    let (m, p) := match_any p [ .TOKEN_LESS_THAN, .TOKEN_GREATER_THAN, .TOKEN_LESS_EQUAL, .TOKEN_GREATER_EQUAL]
    if m then do
      let op := previous_token p
      let (right, p) ← parse_shift fuel p
      let binary := create_node .NODE_BINARY_OP
      let v ← dup_cstr op.value
      let binary := binary.set_value (some v)
      let binary := add_child binary expr
      let binary := add_child binary right
      parse_relational_loop fuel (some binary) p
    else some (expr, p)

def parse_shift (fuel : Nat) (p : parser) : PRes :=
  match fuel with
  | 0 => none
  | fuel + 1 => do
    let (expr, p) ← parse_additive fuel p
    parse_shift_loop fuel expr p

/-- `while (match(shifts)) { op = previous_token; right =
parse_additive; … }` -/
def parse_shift_loop (fuel : Nat) (expr : Option ast_node) (p : parser) : PRes :=
  match fuel with
  | 0 => none
  | fuel + 1 =>
    let (m, p) := match_any p [ .TOKEN_LEFT_SHIFT, .TOKEN_RIGHT_SHIFT]
    if m then do
      let op := previous_token p
      let (right, p) ← parse_additive fuel p
      let binary := create_node .NODE_BINARY_OP
      let v ← dup_cstr op.value
      let binary := binary.set_value (some v)
      let binary := add_child binary expr
      let binary := add_child binary right
      parse_shift_loop fuel (some binary) p
    else some (expr, p)

def parse_additive (fuel : Nat) (p : parser) : PRes :=
  match fuel with
  | 0 => none
  | fuel + 1 => do
    let (expr, p) ← parse_multiplicative fuel p
    parse_additive_loop fuel expr p

/-- `while (match(+ or -)) { op = previous_token; right =
parse_multiplicative; … }` -/
def parse_additive_loop (fuel : Nat) (expr : Option ast_node) (p : parser) : PRes :=
  match fuel with
  | 0 => none
  | fuel + 1 =>
    let (m, p) := match_any p [ .TOKEN_PLUS, .TOKEN_MINUS]
    if m then do
      let op := previous_token p
      let (right, p) ← parse_multiplicative fuel p
      let binary := create_node .NODE_BINARY_OP
      let v ← dup_cstr op.value
      let binary := binary.set_value (some v)
      let binary := add_child binary expr
      let binary := add_child binary right
      parse_additive_loop fuel (some binary) p
    else some (expr, p)

def parse_multiplicative (fuel : Nat) (p : parser) : PRes :=
  match fuel with
  | 0 => none
  | fuel + 1 => do
    let (expr, p) ← parse_unary fuel p
    parse_multiplicative_loop fuel expr p

/-- `while (match(* / %)) { op = previous_token; right =
parse_unary; … }` -/
def parse_multiplicative_loop (fuel : Nat) (expr : Option ast_node) (p : parser) : PRes :=
  match fuel with
  | 0 => none
  | fuel + 1 =>
    let (m, p) := match_any p [ .TOKEN_MULTIPLY, .TOKEN_DIVIDE, .TOKEN_MODULO]
    if m then do
      let op := previous_token p
      let (right, p) ← parse_unary fuel p
      let binary := create_node .NODE_BINARY_OP
      let v ← dup_cstr op.value
      let binary := binary.set_value (some v)
      let binary := add_child binary expr
      let binary := add_child binary right
      parse_multiplicative_loop fuel (some binary) p
    else some (expr, p)

def parse_unary (fuel : Nat) (p : parser) : PRes :=
  match fuel with
  | 0 => none
  | fuel + 1 =>
    let (m, p) := match_any p
      [ .TOKEN_LOGICAL_NOT, .TOKEN_BITWISE_NOT, .TOKEN_MINUS, .TOKEN_PLUS,
        .TOKEN_MULTIPLY, .TOKEN_BITWISE_AND, .TOKEN_INCREMENT, .TOKEN_DECREMENT]
    if m then do
      let op := previous_token p
      let (expr, p) ← parse_unary fuel p
      let unary := create_node .NODE_UNARY_OP
      let v ← dup_cstr op.value
      let unary := unary.set_value (some v)
      let unary := add_child unary expr
      some (some unary, p)
    else
      let (m, p) := match_tok p .TOKEN_SIZEOF
      if m then do
        let (_, p) := consume p .TOKEN_LEFT_PAREN
        let (expr, p) ← parse_expression fuel p
        let (_, p) := consume p .TOKEN_RIGHT_PAREN
        let sizeof_node := create_node .NODE_SIZEOF
        some (some (add_child sizeof_node expr), p)
      else parse_postfix_expr fuel p

def parse_postfix_expr (fuel : Nat) (p : parser) : PRes :=
  match fuel with
  | 0 => none
  | fuel + 1 => do
    let (expr, p) ← parse_primary fuel p
    parse_postfix_loop fuel expr p

def parse_postfix_loop (fuel : Nat) (expr : Option ast_node) (p : parser) : PRes :=
  match fuel with
  | 0 => none
  | fuel + 1 =>
    let (m, p) := match_tok p .TOKEN_LEFT_BRACKET
    if m then do
      let (index, p) ← parse_expression fuel p
      let (_, p) := consume p .TOKEN_RIGHT_BRACKET
      let array_access := create_node .NODE_ARRAY_ACCESS
      let array_access := add_child array_access expr
      let array_access := add_child array_access index
      parse_postfix_loop fuel (some array_access) p
    else
    let (m, p) := match_tok p .TOKEN_LEFT_PAREN
    if m then do
      let call := create_node .NODE_FUNCTION_CALL
      -- call->value = string_duplicate(expr->value ? expr->value : "", …)
      -- dereferences `expr` — undefined behaviour on a NULL expr
      let e ← deref_node expr
      let v := match e.value with
        | some ev => string_duplicate ev ev.length
        | none => string_duplicate [] 0
      let call := call.set_value (some v)
      let (call, p) ←
        if ¬ check p .TOKEN_RIGHT_PAREN then parse_call_args_loop fuel call p
        else pure (call, p)
      let (_, p) := consume p .TOKEN_RIGHT_PAREN
      -- free_node(expr): the discarded identifier node is freed
      parse_postfix_loop fuel (some call) p
    else
    let (m, p) := match_any p [ .TOKEN_DOT, .TOKEN_ARROW]
    if m then do
      let op := previous_token p
      if ¬ check p .TOKEN_IDENTIFIER then
        some (expr, parser_error_at_current p "Expected member name".data)  -- break
      else do
        let member_name ← dup_cstr p.current_token.value
        let p := parser_advance p
        let member_access := create_node .NODE_MEMBER_ACCESS
        let v ← dup_cstr op.value
        let member_access := member_access.set_value (some v)
        let member_access := add_child member_access expr
        let member := (create_node .NODE_IDENTIFIER).set_value (some member_name)
        let member_access := add_child member_access (some member)
        parse_postfix_loop fuel (some member_access) p
    else
    let (m, p) := match_any p [ .TOKEN_INCREMENT, .TOKEN_DECREMENT]
    if m then do
      let op := previous_token p
      let postfix_node := create_node .NODE_POSTFIX_OP
      let v ← dup_cstr op.value
      let postfix_node := postfix_node.set_value (some v)
      let postfix_node := add_child postfix_node expr
      parse_postfix_loop fuel (some postfix_node) p
    else some (expr, p)

def parse_call_args_loop (fuel : Nat) (call : ast_node) (p : parser) :
    Option (ast_node × parser) :=
  match fuel with
  | 0 => none
  | fuel + 1 => do
    let (arg, p) ← parse_expression fuel p
    let call := if arg.isSome then add_child call arg else call
    let (m, p) := match_tok p .TOKEN_COMMA
    if m then parse_call_args_loop fuel call p else some (call, p)

def parse_primary (fuel : Nat) (p : parser) : PRes :=
  match fuel with
  | 0 => none
  | fuel + 1 =>
    let (m, p) := match_any p [ .TOKEN_TRUE, .TOKEN_FALSE]
    if m then do
      let bool_token := previous_token p
      let node := create_node .NODE_BOOL_LITERAL
      let v ← dup_cstr bool_token.value
      some (some (node.set_value (some v)), p)
    else
    let (m, p) := match_tok p .TOKEN_NULL
    if m then
      let node := (create_node .NODE_NULL_LITERAL).set_value
        (some (string_duplicate "null".data 4))
      some (some node, p)
    else
    let (m, p) := match_tok p .TOKEN_NUMBER
    if m then do
      let num_token := previous_token p
      let node := create_node .NODE_NUMBER_LITERAL
      let v ← dup_cstr num_token.value
      some (some (node.set_value (some v)), p)
    else
    let (m, p) := match_tok p .TOKEN_FLOAT
    if m then do
      let float_token := previous_token p
      let node := create_node .NODE_FLOAT_LITERAL
      let v ← dup_cstr float_token.value
      some (some (node.set_value (some v)), p)
    else
    let (m, p) := match_tok p .TOKEN_STRING
    if m then do
      let str_token := previous_token p
      let node := create_node .NODE_STRING_LITERAL
      let v ← dup_cstr str_token.value
      some (some (node.set_value (some v)), p)
    else
    let (m, p) := match_tok p .TOKEN_CHAR
    if m then do
      let char_token := previous_token p
      let node := create_node .NODE_CHAR_LITERAL
      let v ← dup_cstr char_token.value
      some (some (node.set_value (some v)), p)
    else
    let (m, p) := match_tok p .TOKEN_IDENTIFIER
    if m then do
      let id_token := previous_token p
      let node := create_node .NODE_IDENTIFIER
      let v ← dup_cstr id_token.value
      some (some (node.set_value (some v)), p)
    else
    let (m, p) := match_tok p .TOKEN_LEFT_PAREN
    if m then do
      let (expr, p) ← parse_expression fuel p
      let (_, p) := consume p .TOKEN_RIGHT_PAREN
      some (expr, p)
    else
      some (none, parser_error_at_current p "Expected expression".data)

def parse_parameter_list (fuel : Nat) (p : parser) : PRes :=
  match fuel with
  | 0 => none
  | fuel + 1 =>
    let param_list := create_node .NODE_PARAMETER_LIST
    if check p .TOKEN_RIGHT_PAREN then some (some param_list, p)
    else do
      let (param_list, p) ← parse_parameter_loop fuel param_list p
      some (some param_list, p)

def parse_parameter_loop (fuel : Nat) (param_list : ast_node) (p : parser) :
    Option (ast_node × parser) :=
  match fuel with
  | 0 => none
  | fuel + 1 => do
    let (type_node, p) ← parse_type fuel p
    match type_node with
    | none => some (param_list, p)  -- break
    | some type_node => do
      let (param_name, p) ←
        if check p .TOKEN_IDENTIFIER then do
          let v ← dup_cstr p.current_token.value
          pure (some v, parser_advance p)
        else pure ((none : Option (List Char)), p)
      let param := (create_node .NODE_PARAMETER).set_value param_name
      let param := add_child param (some type_node)
      let param_list := add_child param_list (some param)
      let (m, p) := match_tok p .TOKEN_COMMA
      if m then parse_parameter_loop fuel param_list p else some (param_list, p)

def parse_export_statement (fuel : Nat) (p : parser) : PRes :=
  match fuel with
  | 0 => none
  | fuel + 1 => do
    let export_node := create_node .NODE_EXPORT
    let (exported_item, p) ← parse_declaration fuel p
    let export_node :=
      if exported_item.isSome then add_child export_node exported_item else export_node
    some (some export_node, p)

def parse_switch_statement (fuel : Nat) (p : parser) : PRes :=
  match fuel with
  | 0 => none
  | fuel + 1 => do
    let (_, p) := consume p .TOKEN_LEFT_PAREN
    let (expr, p) ← parse_expression fuel p
    let (_, p) := consume p .TOKEN_RIGHT_PAREN
    let (_, p) := consume p .TOKEN_LEFT_BRACE
    let switch_node := add_child (create_node .NODE_SWITCH_STATEMENT) expr
    let (switch_node, p) ← parse_switch_cases_loop fuel switch_node p
    let (_, p) := consume p .TOKEN_RIGHT_BRACE
    some (some switch_node, p)

def parse_switch_cases_loop (fuel : Nat) (switch_node : ast_node) (p : parser) :
    Option (ast_node × parser) :=
  match fuel with
  | 0 => none
  | fuel + 1 =>
    if ¬ check p .TOKEN_RIGHT_BRACE ∧ ¬ is_at_end p then
      let (m, p) := match_tok p .TOKEN_CASE
      if m then do
        let (case_value, p) ← parse_expression fuel p
        let (_, p) := consume p .TOKEN_COLON
        let case_node := add_child (create_node .NODE_CASE_STATEMENT) case_value
        let (case_node, p) ← parse_case_body_loop fuel case_node p
        parse_switch_cases_loop fuel (add_child switch_node (some case_node)) p
      else
        let (m, p) := match_tok p .TOKEN_DEFAULT
        if m then do
          let (_, p) := consume p .TOKEN_COLON
          let default_node := create_node .NODE_DEFAULT_STATEMENT
          let (default_node, p) ← parse_default_body_loop fuel default_node p
          parse_switch_cases_loop fuel (add_child switch_node (some default_node)) p
        else
          some (switch_node,
                parser_error_at_current p "Expected case or default".data)  -- break
    else some (switch_node, p)

def parse_case_body_loop (fuel : Nat) (case_node : ast_node) (p : parser) :
    Option (ast_node × parser) :=
  match fuel with
  | 0 => none
  | fuel + 1 =>
    if ¬ check p .TOKEN_CASE ∧ ¬ check p .TOKEN_DEFAULT ∧
       ¬ check p .TOKEN_RIGHT_BRACE ∧ ¬ is_at_end p then do
      let (stmt, p) ← parse_statement fuel p
      let case_node := if stmt.isSome then add_child case_node stmt else case_node
      match stmt with
      | some s =>
        if s.type = .NODE_BREAK_STATEMENT then some (case_node, p)
        else parse_case_body_loop fuel case_node p
      | none => parse_case_body_loop fuel case_node p
    else some (case_node, p)

def parse_default_body_loop (fuel : Nat) (default_node : ast_node) (p : parser) :
    Option (ast_node × parser) :=
  match fuel with
  | 0 => none
  | fuel + 1 =>
    if ¬ check p .TOKEN_CASE ∧ ¬ check p .TOKEN_RIGHT_BRACE ∧ ¬ is_at_end p then do
      let (stmt, p) ← parse_statement fuel p
      let default_node := if stmt.isSome then add_child default_node stmt else default_node
      match stmt with
      | some s =>
        if s.type = .NODE_BREAK_STATEMENT then some (default_node, p)
        else parse_default_body_loop fuel default_node p
      | none => parse_default_body_loop fuel default_node p
    else some (default_node, p)

def parse_do_while_statement (fuel : Nat) (p : parser) : PRes :=
  match fuel with
  | 0 => none
  | fuel + 1 => do
    let (body, p) ← parse_statement fuel p
    let (_, p) := consume p .TOKEN_WHILE
    let (_, p) := consume p .TOKEN_LEFT_PAREN
    let (condition, p) ← parse_expression fuel p
    let (_, p) := consume p .TOKEN_RIGHT_PAREN
    let (_, p) := consume p .TOKEN_SEMICOLON
    let do_while := create_node .NODE_DO_WHILE_STATEMENT
    let do_while := add_child do_while body
    let do_while := add_child do_while condition
    some (some do_while, p)

end

/-- The driver's per-file composition (compiler.cpp):
`create_lexer` → `create_parser` → `parse`. -/
def parse_source (fuel : Nat) (src : List Char) : PRes :=
  parse fuel (create_parser_state (create_lexer src))

/-! ## Code emitter (code_gen.cpp) -/

inductive target_arch where
  | ARCH_X86_64 | ARCH_ARM64 | ARCH_RISCV64
  deriving DecidableEq, Repr

inductive optimization_level where
  | OPT_NONE | OPT_SIZE | OPT_SPEED | OPT_DEBUG
  deriving DecidableEq, Repr

structure variable_info where
  name : List Char
  type : List Char
  stack_offset : Int
  size : Int
  is_parameter : Bool
  is_global : Bool
  deriving DecidableEq, Repr

structure function_info where
  name : List Char
  return_type : List Char
  stack_size : Int
  param_count : Int
  is_main : Bool
  deriving DecidableEq, Repr

/-- symbol_table from code_gen.hpp; the counts/capacities of the C
arrays are the list lengths.  (`vars` is the source's `variables`
array, renamed because `variables` is reserved in Lean.) -/
structure symbol_table where
  vars : List variable_info
  functions : List function_info
  current_stack_offset : Int
  scope_level : Int
  deriving DecidableEq, Repr

structure code_generator where
  output : List Char
  capacity : Nat
  strings : List (List Char)
  symbols : symbol_table
  label_counter : Nat
  temp_counter : Nat
  in_function : Bool
  current_function : Option (List Char)
  arch : target_arch
  opt_level : optimization_level
  debug_info : Bool
  data_section : List Char
  text_section : List Char
  bss_section : List Char
  error_count : Nat
  errors : List (List Char)
  deriving DecidableEq, Repr

def create_code_generator (arch : target_arch) (opt : optimization_level) :
    code_generator :=
  { output := [], capacity := 64 * 1024, strings := [],
    symbols := { vars := [], functions := [],
                 current_stack_offset := 0, scope_level := 0 },
    label_counter := 0, temp_counter := 0, in_function := false,
    current_function := none, arch := arch, opt_level := opt,
    debug_info := opt = .OPT_DEBUG,
    data_section := [], text_section := [], bss_section := [],
    error_count := 0, errors := [] }

/-- The doubling loop of append_string
(`while (length + str_len >= capacity) capacity *= 2`).  A zero
capacity never occurs (the generator starts at 64 KiB and only
doubles); the C loop would not terminate there.  For any positive
capacity, `log2 needed + 2` doublings always get past `needed`, so
the fuel never runs out. -/
def grow_capacity_go (fuel cap needed : Nat) : Nat :=
  match fuel with
  | 0 => cap
  | fuel + 1 => if needed ≥ cap then grow_capacity_go fuel (cap * 2) needed else cap

def grow_capacity (cap needed : Nat) : Nat :=
  grow_capacity_go (needed.log2 + 2) cap needed

def append_string (g : code_generator) (str : List Char) : code_generator :=
  { g with capacity := grow_capacity g.capacity (g.output.length + str.length),
           output := g.output ++ str }

/-- append_instruction; the operands pointer is non-NULL at every call
site, so the `operands &&` guard reduces to the length test. -/
def append_instruction (g : code_generator) (mnemonic operands : List Char) :
    code_generator :=
  let g := append_string g "    ".data
  let g := append_string g mnemonic
  let g :=
    if operands.length > 0 then append_string (append_string g " ".data) operands
    else g
  append_string g "\n".data

def append_label (g : code_generator) (label : List Char) : code_generator :=
  append_string (append_string g label) ":\n".data

def append_comment (g : code_generator) (comment : List Char) : code_generator :=
  if g.debug_info then
    append_string (append_string (append_string g "    # ".data) comment) "\n".data
  else g

def add_string_literal (g : code_generator) (str : List Char) : code_generator :=
  { g with strings := g.strings ++ [string_duplicate str str.length] }

def find_string_index (g : code_generator) (str : List Char) :
    Nat × code_generator :=
  match g.strings.findIdx? (· = str) with
  | some i => (i, g)
  | none =>
    let g := add_string_literal g str
    (g.strings.length - 1, g)

def enter_scope (g : code_generator) : code_generator :=
  { g with symbols := { g.symbols with scope_level := g.symbols.scope_level + 1 } }

/-- The pop loop of exit_scope: walking back from the newest variable,
records whose `size` equals the current scope level are removed (the
size-versus-scope comparison is the source's own). -/
def exit_scope_pop (lvl : Int) : List variable_info → List variable_info
  | [] => []
  | v :: rest => if v.size = lvl then exit_scope_pop lvl rest else v :: rest

def exit_scope (g : code_generator) : code_generator :=
  { g with symbols :=
      { g.symbols with
        vars := (exit_scope_pop g.symbols.scope_level
                  g.symbols.vars.reverse).reverse,
        scope_level := g.symbols.scope_level - 1 } }

def add_variable (g : code_generator) (name ty : List Char) (size : Int)
    (is_param : Bool) : code_generator :=
  let var_count : Nat := g.symbols.vars.length
  let (offset, cso) :=
    if is_param then
      ((16 : Int) + var_count * 8, g.symbols.current_stack_offset)
    else
      (g.symbols.current_stack_offset - size, g.symbols.current_stack_offset - size)
  { g with symbols :=
      { g.symbols with
        vars := g.symbols.vars ++
          [{ name := string_duplicate name name.length,
             type := string_duplicate ty ty.length,
             stack_offset := offset, size := size, is_parameter := is_param,
             is_global := g.symbols.scope_level = 0 }],
        current_stack_offset := cso } }

def add_function (g : code_generator) (name return_type : List Char) :
    code_generator :=
  { g with symbols :=
      { g.symbols with
        functions := g.symbols.functions ++
          [{ name := string_duplicate name name.length,
             return_type := string_duplicate return_type return_type.length,
             stack_size := 0, param_count := 0,
             is_main := name = "main".data }] } }

/-- find_variable scans from the newest record backwards. -/
def find_variable (g : code_generator) (name : List Char) :
    Option variable_info :=
  g.symbols.vars.reverse.find? (·.name = name)

def find_function (g : code_generator) (name : List Char) :
    Option function_info :=
  g.symbols.functions.find? (·.name = name)

def digitChar (n : Nat) : Char := Char.ofNat (48 + n)

def natToDecGo (fuel n : Nat) : List Char :=
  match fuel with
  | 0 => []
  | fuel + 1 =>
    if n < 10 then [digitChar n]
    else natToDecGo fuel (n / 10) ++ [digitChar (n % 10)]

/-- Decimal rendering of a nonnegative integer, as `snprintf` with
`%d` produces it (the fuel `n + 1` always exceeds the digit count). -/
def natToDec (n : Nat) : List Char :=
  natToDecGo (n + 1) n

def intToDec (i : Int) : List Char :=
  if i < 0 then '-' :: natToDec (-i).toNat else natToDec i.toNat

/-- generate_label: `snprintf(label, 64, "%s%d", prefix,
gen->label_counter++)` — one shared counter for every prefix; the
64-byte buffer truncates the text to 63 characters. -/
def generate_label (g : code_generator) (pre : List Char) :
    List Char × code_generator :=
  ((pre ++ natToDec g.label_counter).take 63,
   { g with label_counter := g.label_counter + 1 })

def generate_temp (g : code_generator) : List Char × code_generator :=
  (("tmp".data ++ natToDec g.temp_counter).take 31,
   { g with temp_counter := g.temp_counter + 1 })

def get_type_size (ty : List Char) : Int :=
  if ty = "i8".data ∨ ty = "u8".data then 1
  else if ty = "i16".data ∨ ty = "u16".data then 2
  else if ty = "i32".data ∨ ty = "u32".data ∨ ty = "f32".data then 4
  else if ty = "i64".data ∨ ty = "u64".data ∨ ty = "f64".data then 8
  else if ty = "bool".data then 1
  else if ty.contains '*' then 8
  else 8

def get_type_suffix (ty : List Char) : List Char :=
  match get_type_size ty with
  | 1 => "b".data
  | 2 => "w".data
  | 4 => "l".data
  | 8 => "q".data
  | _ => "q".data

def generate_function_prologue (g : code_generator) (_func_name : List Char)
    (stack_size : Int) : code_generator :=
  let g := append_instruction g "push".data "%rbp".data
  let g := append_instruction g "mov".data "%rsp, %rbp".data
  if stack_size > 0 then
    append_instruction g "sub".data ('$' :: intToDec stack_size ++ ", %rsp".data)
  else g

def generate_function_epilogue (g : code_generator) : code_generator :=
  let g := append_instruction g "mov".data "%rbp, %rsp".data
  let g := append_instruction g "pop".data "%rbp".data
  append_instruction g "ret".data [] 

def generate_call_instruction (g : code_generator) (func_name : List Char) :
    code_generator :=
  append_instruction g "call".data func_name

def generate_syscall (g : code_generator) (syscall_num : Int) : code_generator :=
  let g := append_instruction g "mov".data ('$' :: intToDec syscall_num ++ ", %rax".data)
  append_instruction g "syscall".data []

def node_type_name (ty : node_type) : List Char :=
  match ty with
  | .NODE_PROGRAM => "PROGRAM".data
  | .NODE_MODULE => "MODULE".data
  | .NODE_IMPORT => "IMPORT".data
  | .NODE_EXPORT => "EXPORT".data
  | .NODE_FUNCTION => "FUNCTION".data
  | .NODE_VARIABLE_DECLARATION => "VARIABLE_DECLARATION".data
  | .NODE_STRUCT => "STRUCT".data
  | .NODE_ENUM => "ENUM".data
  | .NODE_UNION => "UNION".data
  | .NODE_PARAMETER => "PARAMETER".data
  | .NODE_PARAMETER_LIST => "PARAMETER_LIST".data
  | .NODE_TYPE => "TYPE".data
  | .NODE_POINTER_TYPE => "POINTER_TYPE".data
  | .NODE_ARRAY_TYPE => "ARRAY_TYPE".data
  | .NODE_BLOCK => "BLOCK".data
  | .NODE_EXPRESSION_STATEMENT => "EXPRESSION_STATEMENT".data
  | .NODE_RETURN_STATEMENT => "RETURN_STATEMENT".data
  | .NODE_IF_STATEMENT => "IF_STATEMENT".data
  | .NODE_WHILE_STATEMENT => "WHILE_STATEMENT".data
  | .NODE_FOR_STATEMENT => "FOR_STATEMENT".data
  | .NODE_DO_WHILE_STATEMENT => "DO_WHILE_STATEMENT".data
  | .NODE_SWITCH_STATEMENT => "SWITCH_STATEMENT".data
  | .NODE_CASE_STATEMENT => "CASE_STATEMENT".data
  | .NODE_DEFAULT_STATEMENT => "DEFAULT_STATEMENT".data
  | .NODE_BREAK_STATEMENT => "BREAK_STATEMENT".data
  | .NODE_CONTINUE_STATEMENT => "CONTINUE_STATEMENT".data
  | .NODE_ASSIGNMENT => "ASSIGNMENT".data
  | .NODE_BINARY_OP => "BINARY_OP".data
  | .NODE_UNARY_OP => "UNARY_OP".data
  | .NODE_POSTFIX_OP => "POSTFIX_OP".data
  | .NODE_TERNARY => "TERNARY".data
  | .NODE_FUNCTION_CALL => "FUNCTION_CALL".data
  | .NODE_ARRAY_ACCESS => "ARRAY_ACCESS".data
  | .NODE_MEMBER_ACCESS => "MEMBER_ACCESS".data
  | .NODE_SIZEOF => "SIZEOF".data
  | .NODE_NUMBER_LITERAL => "NUMBER_LITERAL".data
  | .NODE_FLOAT_LITERAL => "FLOAT_LITERAL".data
  | .NODE_STRING_LITERAL => "STRING_LITERAL".data
  | .NODE_CHAR_LITERAL => "CHAR_LITERAL".data
  | .NODE_BOOL_LITERAL => "BOOL_LITERAL".data
  | .NODE_NULL_LITERAL => "NULL_LITERAL".data
  | .NODE_IDENTIFIER => "IDENTIFIER".data
  | .NODE_ENUM_VALUE => "ENUM_VALUE".data
  | .NODE_CAST => "CAST".data
  | .NODE_TYPE_CONVERSION => "TYPE_CONVERSION".data

def generate_number_literal (g : code_generator) (node : ast_node) :
    Option code_generator := do
  -- snprintf("$%s, %%rax", node->value): %s on NULL is undefined
  let v ← node.value
  some (append_instruction g "mov".data ('$' :: v ++ ", %rax".data))

def generate_float_literal (g : code_generator) (node : ast_node) :
    Option code_generator := do
  let v ← node.value
  some (append_instruction g "mov".data ('$' :: v ++ ", %rax".data))

def generate_string_literal (g : code_generator) (node : ast_node) :
    Option code_generator := do
  let v ← node.value   -- find_string_index strcmp-walks the table
  let (str_index, g) := find_string_index g v
  some (append_instruction g "mov".data
    ("$str".data ++ natToDec str_index ++ ", %rax".data))

def generate_char_literal (g : code_generator) (node : ast_node) :
    Option code_generator :=
  match node.value with
  | some (c :: _) =>
    some (append_instruction g "mov".data ('$' :: intToDec c.toNat ++ ", %rax".data))
  | _ =>
    some (append_instruction g "mov".data "$0, %rax".data)

def generate_bool_literal (g : code_generator) (node : ast_node) :
    Option code_generator := do
  let v ← node.value   -- strcmp(node->value, "true")
  if v = "true".data then
    some (append_instruction g "mov".data "$1, %rax".data)
  else
    some (append_instruction g "mov".data "$0, %rax".data)

def generate_identifier (g : code_generator) (node : ast_node) :
    Option code_generator := do
  let v ← node.value
  match find_variable g v with
  | some var =>
    if g.in_function then
      some (append_instruction g "mov".data
        (intToDec var.stack_offset ++ "(%rbp), %rax".data))
    else some g
  | none => some g

def generate_break_statement (g : code_generator) (_node : ast_node) :
    code_generator :=
  let g := append_comment g "break statement".data
  append_instruction g "# break".data "- needs context tracking".data

def generate_continue_statement (g : code_generator) (_node : ast_node) :
    code_generator :=
  let g := append_comment g "continue statement".data
  append_instruction g "# continue".data "- needs context tracking".data

/-- Registering the parameters of a function into the symbol table
(the parameter loop of generate_function). -/
def register_params (g : code_generator) : List ast_node → Option code_generator
  | [] => some g
  | param :: rest => do
    if param.type = .NODE_PARAMETER ∧ param.child_count > 0 then
      match param.children.head? with
      | some param_type => do
        let param_name := match param.value with
          | some v => v
          | none => "unnamed".data
        let ptv ← param_type.value     -- get_type_size strcmp-dereferences it
        let param_size := get_type_size ptv
        register_params (add_variable g param_name ptv param_size true) rest
      | none => register_params g rest
    else register_params g rest

mutual

/-- generate_node: the root dispatcher.  The switch has no case for
NODE_SWITCH_STATEMENT, NODE_BREAK_STATEMENT, NODE_CONTINUE_STATEMENT
(among others): those fall to `default:`, which emits only a debug
comment. -/
def generate_node (fuel : Nat) (g : code_generator) (node : ast_node) :
    Option code_generator :=
  match fuel with
  | 0 => none
  | fuel + 1 =>
    let g :=
      if g.debug_info then
        append_comment g ("Node: ".data ++ node_type_name node.type)
      else g
    match node.type with
    | .NODE_PROGRAM => generate_program fuel g node
    | .NODE_FUNCTION => generate_function fuel g node
    | .NODE_VARIABLE_DECLARATION => generate_variable_declaration fuel g node
    | .NODE_BLOCK => generate_block fuel g node
    | .NODE_IF_STATEMENT => generate_if_statement fuel g node
    | .NODE_WHILE_STATEMENT => generate_while_statement fuel g node
    | .NODE_FOR_STATEMENT => generate_for_statement fuel g node
    | .NODE_RETURN_STATEMENT => generate_return_statement fuel g node
    | .NODE_EXPRESSION_STATEMENT =>
      match node.children.head? with
      | some c => generate_node fuel g c
      | none => some g
    | .NODE_ASSIGNMENT => generate_assignment fuel g node
    | .NODE_BINARY_OP => generate_binary_op fuel g node
    | .NODE_UNARY_OP => generate_unary_op fuel g node
    | .NODE_FUNCTION_CALL => generate_function_call fuel g node
    | .NODE_ARRAY_ACCESS => generate_array_access fuel g node
    | .NODE_MEMBER_ACCESS => generate_member_access fuel g node
    | .NODE_TERNARY => generate_ternary fuel g node
    | .NODE_NUMBER_LITERAL => generate_number_literal g node
    | .NODE_FLOAT_LITERAL => generate_float_literal g node
    | .NODE_STRING_LITERAL => generate_string_literal g node
    | .NODE_CHAR_LITERAL => generate_char_literal g node
    | .NODE_BOOL_LITERAL => generate_bool_literal g node
    | .NODE_IDENTIFIER => generate_identifier g node
    | _ => some (append_comment g "Unsupported node type".data)

def generate_each (fuel : Nat) (g : code_generator) (nodes : List ast_node) :
    Option code_generator :=
  match fuel with
  | 0 => none
  | fuel + 1 =>
    match nodes with
    | [] => some g
    | n :: rest => do
      let g ← generate_node fuel g n
      generate_each fuel g rest

def generate_program (fuel : Nat) (g : code_generator) (node : ast_node) :
    Option code_generator :=
  match fuel with
  | 0 => none
  | fuel + 1 =>
    let g := append_comment g "Program start".data
    generate_each fuel g node.children

def generate_function (fuel : Nat) (g : code_generator) (node : ast_node) :
    Option code_generator :=
  match fuel with
  | 0 => none
  | fuel + 1 =>
    if node.child_count < 2 then some g
    else do
      let func_name ← node.value
      let return_type ← node.children.head?
      let params := if node.child_count > 2 then node.children.get? 1 else none
      let body ← node.children.get? (node.child_count - 1)
      let rtv ← return_type.value     -- add_function strlen-dereferences it
      let g := add_function g func_name rtv
      let g := { g with in_function := true,
                        current_function :=
                          some (string_duplicate func_name func_name.length) }
      let g := enter_scope g
      let g := append_label g func_name
      let g := generate_function_prologue g func_name 64
      let g ←
        match params with
        | some ps =>
          if ps.type = .NODE_PARAMETER_LIST then register_params g ps.children
          else some g
        | none => some g
      let g ← generate_node fuel g body
      let g := generate_function_epilogue g
      let g := exit_scope g
      some { g with in_function := false, current_function := none }

def generate_variable_declaration (fuel : Nat) (g : code_generator)
    (node : ast_node) : Option code_generator :=
  match fuel with
  | 0 => none
  | fuel + 1 =>
    if node.child_count < 1 then some g
    else do
      let var_name ← node.value       -- add_variable strlen-dereferences it
      let type_node ← node.children.head?
      let type_name ← type_node.value
      let var_size := get_type_size type_name
      let g := add_variable g var_name type_name var_size false
      if node.child_count > 1 then do
        let init ← node.children.get? 1
        let g ← generate_node fuel g init
        match find_variable g var_name with
        | some var =>
          if g.in_function then
            some (append_instruction g "mov".data
              ("%rax, ".data ++ intToDec var.stack_offset ++ "(%rbp)".data))
          else some g
        | none => some g
      else some g

def generate_block (fuel : Nat) (g : code_generator) (node : ast_node) :
    Option code_generator :=
  match fuel with
  | 0 => none
  | fuel + 1 => do
    let g := enter_scope g
    let g ← generate_each fuel g node.children
    some (exit_scope g)

def generate_if_statement (fuel : Nat) (g : code_generator) (node : ast_node) :
    Option code_generator :=
  match fuel with
  | 0 => none
  | fuel + 1 =>
    if node.child_count < 2 then some g
    else do
      let condition ← node.children.head?
      let then_stmt ← node.children.get? 1
      let else_stmt := if node.child_count > 2 then node.children.get? 2 else none
      let (else_label, g) := generate_label g "else_".data
      let (end_label, g) := generate_label g "endif_".data
      let g ← generate_node fuel g condition
      let g := append_instruction g "test".data "%rax, %rax".data
      let g := append_instruction g "je".data else_label
      let g ← generate_node fuel g then_stmt
      let g := append_instruction g "jmp".data end_label
      let g := append_label g else_label
      let g ←
        match else_stmt with
        | some e => generate_node fuel g e
        | none => some g
      some (append_label g end_label)

def generate_while_statement (fuel : Nat) (g : code_generator) (node : ast_node) :
    Option code_generator :=
  match fuel with
  | 0 => none
  | fuel + 1 =>
    if node.child_count < 2 then some g
    else do
      let condition ← node.children.head?
      let body ← node.children.get? 1
      let (loop_label, g) := generate_label g "loop_".data
      let (end_label, g) := generate_label g "endloop_".data
      let g := append_label g loop_label
      let g ← generate_node fuel g condition
      let g := append_instruction g "test".data "%rax, %rax".data
      let g := append_instruction g "je".data end_label
      let g ← generate_node fuel g body
      let g := append_instruction g "jmp".data loop_label
      some (append_label g end_label)

def generate_for_statement (fuel : Nat) (g : code_generator) (node : ast_node) :
    Option code_generator :=
  match fuel with
  | 0 => none
  | fuel + 1 =>
    if node.child_count < 3 then some g
    else do
      -- add_child never stores a NULL pointer, so the source's NULL
      -- guards on init/condition/update/body are read here as
      -- presence in the children array
      let init := node.children.get? 0
      let condition := node.children.get? 1
      let update := node.children.get? 2
      let body := if node.child_count > 3 then node.children.get? 3 else none
      let (loop_label, g) := generate_label g "for_loop_".data
      let (condition_label, g) := generate_label g "for_condition_".data
      let (end_label, g) := generate_label g "for_end_".data
      let g ←
        match init with
        | some i => generate_node fuel g i
        | none => some g
      let g := append_instruction g "jmp".data condition_label
      let g := append_label g loop_label
      let g ←
        match body with
        | some b => generate_node fuel g b
        | none => some g
      let g ←
        match update with
        | some u => generate_node fuel g u
        | none => some g
      let g := append_label g condition_label
      let g ←
        match condition with
        | some c => do
          let g ← generate_node fuel g c
          let g := append_instruction g "test".data "%rax, %rax".data
          some (append_instruction g "jne".data loop_label)
        | none =>
          some (append_instruction g "jmp".data loop_label)
      some (append_label g end_label)

def generate_switch_statement (fuel : Nat) (g : code_generator) (node : ast_node) :
    Option code_generator :=
  match fuel with
  | 0 => none
  | fuel + 1 =>
    if node.child_count < 2 then some g
    else do
      let expr ← node.children.head?
      let body ← node.children.get? 1
      let (end_label, g) := generate_label g "switch_end_".data
      let (default_label, g) := generate_label g "switch_default_".data
      let g ← generate_node fuel g expr
      let g := append_instruction g "push".data "%rax".data
      let (g, has_default) ← generate_switch_comparisons fuel g body.children
      let g :=
        if has_default then append_instruction g "jmp".data default_label
        else append_instruction g "jmp".data end_label
      let g ← generate_switch_bodies fuel g body.children default_label
      let g := append_label g end_label
      some (append_instruction g "add".data "$8, %rsp".data)

def generate_switch_comparisons (fuel : Nat) (g : code_generator)
    (cases : List ast_node) : Option (code_generator × Bool) :=
  match fuel with
  | 0 => none
  | fuel + 1 =>
    match cases with
    | [] => some (g, false)
    | case_node :: rest =>
      if case_node.type = .NODE_CASE_STATEMENT then
        if case_node.child_count > 0 then do
          let case_value ← case_node.children.head?
          let (case_label, g) := generate_label g "case_".data
          let g := append_instruction g "mov".data "(%rsp), %rax".data
          let g ← generate_node fuel g case_value
          let g := append_instruction g "mov".data "%rax, %rbx".data
          let g := append_instruction g "mov".data "(%rsp), %rax".data
          let g := append_instruction g "cmp".data "%rbx, %rax".data
          let g := append_instruction g "je".data case_label
          generate_switch_comparisons fuel g rest
        else generate_switch_comparisons fuel g rest
      else if case_node.type = .NODE_DEFAULT_STATEMENT then do
        let (g, _) ← generate_switch_comparisons fuel g rest
        some (g, true)
      else generate_switch_comparisons fuel g rest

def generate_switch_bodies (fuel : Nat) (g : code_generator)
    (cases : List ast_node) (default_label : List Char) :
    Option code_generator :=
  match fuel with
  | 0 => none
  | fuel + 1 =>
    match cases with
    | [] => some g
    | case_node :: rest =>
      if case_node.type = .NODE_CASE_STATEMENT then
        if case_node.child_count > 0 then do
          let (case_label, g) := generate_label g "case_".data
          let g := append_label g case_label
          let g ← generate_each fuel g (case_node.children.drop 1)
          generate_switch_bodies fuel g rest default_label
        else generate_switch_bodies fuel g rest default_label
      else if case_node.type = .NODE_DEFAULT_STATEMENT then do
        let g := append_label g default_label
        let g ← generate_each fuel g case_node.children
        generate_switch_bodies fuel g rest default_label
      else generate_switch_bodies fuel g rest default_label

def generate_return_statement (fuel : Nat) (g : code_generator) (node : ast_node) :
    Option code_generator :=
  match fuel with
  | 0 => none
  | fuel + 1 => do
    let g ←
      match node.children.head? with
      | some e => generate_node fuel g e
      | none => some (append_instruction g "mov".data "$0, %rax".data)
    some (generate_function_epilogue g)

def generate_assignment (fuel : Nat) (g : code_generator) (node : ast_node) :
    Option code_generator :=
  match fuel with
  | 0 => none
  | fuel + 1 =>
    if node.child_count ≠ 2 then some g
    else do
      let target ← node.children.head?
      let value ← node.children.get? 1
      let op ← node.value      -- strcmp-dereferenced
      let g ← generate_node fuel g value
      let g ←
        if op = "=".data then some g
        else if op = "+=".data then do
          let g := append_instruction g "push".data "%rax".data
          let g ← generate_node fuel g target
          let g := append_instruction g "pop".data "%rbx".data
          some (append_instruction g "add".data "%rbx, %rax".data)
        else if op = "-=".data then do
          let g := append_instruction g "push".data "%rax".data
          let g ← generate_node fuel g target
          let g := append_instruction g "pop".data "%rbx".data
          some (append_instruction g "sub".data "%rbx, %rax".data)
        else if op = "*=".data then do
          let g := append_instruction g "push".data "%rax".data
          let g ← generate_node fuel g target
          let g := append_instruction g "pop".data "%rbx".data
          some (append_instruction g "imul".data "%rbx, %rax".data)
        else some g
      if target.type = .NODE_IDENTIFIER then do
        let tv ← target.value
        match find_variable g tv with
        | some var =>
          if g.in_function then
            some (append_instruction g "mov".data
              ("%rax, ".data ++ intToDec var.stack_offset ++ "(%rbp)".data))
          else some g
        | none => some g
      else some g

def generate_binary_op (fuel : Nat) (g : code_generator) (node : ast_node) :
    Option code_generator :=
  match fuel with
  | 0 => none
  | fuel + 1 =>
    if node.child_count ≠ 2 then some g
    else do
      let left ← node.children.head?
      let right ← node.children.get? 1
      let op ← node.value      -- strcmp-dereferenced
      let g ← generate_node fuel g left
      let g := append_instruction g "push".data "%rax".data
      let g ← generate_node fuel g right
      let g := append_instruction g "mov".data "%rax, %rbx".data
      let g := append_instruction g "pop".data "%rax".data
      if op = "+".data then
        some (append_instruction g "add".data "%rbx, %rax".data)
      else if op = "-".data then
        some (append_instruction g "sub".data "%rbx, %rax".data)
      else if op = "*".data then
        some (append_instruction g "imul".data "%rbx, %rax".data)
      else if op = "/".data then
        let g := append_instruction g "cqo".data []
        some (append_instruction g "idiv".data "%rbx".data)
      else if op = "%".data then
        let g := append_instruction g "cqo".data []
        let g := append_instruction g "idiv".data "%rbx".data
        some (append_instruction g "mov".data "%rdx, %rax".data)
      else if op = "==".data then
        let g := append_instruction g "cmp".data "%rbx, %rax".data
        let g := append_instruction g "sete".data "%al".data
        some (append_instruction g "movzb".data "%al, %rax".data)
      else if op = "!=".data then
        let g := append_instruction g "cmp".data "%rbx, %rax".data
        let g := append_instruction g "setne".data "%al".data
        some (append_instruction g "movzb".data "%al, %rax".data)
      else if op = "<".data then
        let g := append_instruction g "cmp".data "%rbx, %rax".data
        let g := append_instruction g "setl".data "%al".data
        some (append_instruction g "movzb".data "%al, %rax".data)
      else if op = ">".data then
        let g := append_instruction g "cmp".data "%rbx, %rax".data
        let g := append_instruction g "setg".data "%al".data
        some (append_instruction g "movzb".data "%al, %rax".data)
      else if op = "<=".data then
        let g := append_instruction g "cmp".data "%rbx, %rax".data
        let g := append_instruction g "setle".data "%al".data
        some (append_instruction g "movzb".data "%al, %rax".data)
      else if op = ">=".data then
        let g := append_instruction g "cmp".data "%rbx, %rax".data
        let g := append_instruction g "setge".data "%al".data
        some (append_instruction g "movzb".data "%al, %rax".data)
      else some g

def generate_unary_op (fuel : Nat) (g : code_generator) (node : ast_node) :
    Option code_generator :=
  match fuel with
  | 0 => none
  | fuel + 1 =>
    if node.child_count ≠ 1 then some g
    else do
      let operand ← node.children.head?
      let op ← node.value
      if op = "-".data then do
        let g ← generate_node fuel g operand
        some (append_instruction g "neg".data "%rax".data)
      else if op = "!".data then do
        let g ← generate_node fuel g operand
        let g := append_instruction g "test".data "%rax, %rax".data
        let g := append_instruction g "sete".data "%al".data
        some (append_instruction g "movzb".data "%al, %rax".data)
      else if op = "~".data then do
        let g ← generate_node fuel g operand
        some (append_instruction g "not".data "%rax".data)
      else if op = "&".data then
        if operand.type = .NODE_IDENTIFIER then do
          let ov ← operand.value
          match find_variable g ov with
          | some var =>
            if g.in_function then
              let g := append_instruction g "lea".data
                ('$' :: intToDec var.stack_offset ++ ", %rax".data)
              some (append_instruction g "add".data "%rbp, %rax".data)
            else some g
          | none => some g
        else some g
      else if op = "*".data then do
        let g ← generate_node fuel g operand
        some (append_instruction g "mov".data "(%rax), %rax".data)
      else some g

def generate_function_call (fuel : Nat) (g : code_generator) (node : ast_node) :
    Option code_generator :=
  match fuel with
  | 0 => none
  | fuel + 1 => do
    let func_name ← node.value   -- strcmp(func_name, "printf")
    if func_name = "printf".data then generate_printf fuel g node
    else do
      let g ← generate_args_push fuel g node.children.reverse
      let g := generate_call_instruction g func_name
      if node.child_count > 0 then
        some (append_instruction g "add".data
          ('$' :: intToDec (node.child_count * 8) ++ ", %rsp".data))
      else some g

def generate_args_push (fuel : Nat) (g : code_generator) (args : List ast_node) :
    Option code_generator :=
  match fuel with
  | 0 => none
  | fuel + 1 =>
    match args with
    | [] => some g
    | a :: rest => do
      let g ← generate_node fuel g a
      let g := append_instruction g "push".data "%rax".data
      generate_args_push fuel g rest

def generate_printf (fuel : Nat) (g : code_generator) (node : ast_node) :
    Option code_generator :=
  match fuel with
  | 0 => none
  | fuel + 1 =>
    if node.child_count = 0 then some g
    else do
      let g ←
        if node.child_count ≥ 2 then do
          let format ← node.children.head?
          let arg ← node.children.get? 1
          if format.type = .NODE_STRING_LITERAL then do
            let fv ← format.value
            if fv = "%d".data then do
              let g ← generate_node fuel g arg
              let num_str := intToDec arg.int_value
              let (str_index, g) := find_string_index g num_str
              let g := append_instruction g "mov".data
                ("$str".data ++ natToDec str_index ++ ", %rsi".data)
              some (append_instruction g "mov".data
                ('$' :: intToDec num_str.length ++ ", %rdx".data))
            else some g
          else some g
        else do
          let first ← node.children.head?
          let g ← generate_node fuel g first
          let g := append_instruction g "mov".data "%rax, %rsi".data
          if first.type = .NODE_STRING_LITERAL then do
            let fv ← first.value
            some (append_instruction g "mov".data
              ('$' :: intToDec fv.length ++ ", %rdx".data))
          else some g
      let g := append_instruction g "mov".data "$1, %rdi".data
      let g := append_instruction g "mov".data "$1, %rax".data
      some (append_instruction g "syscall".data [])

def generate_array_access (fuel : Nat) (g : code_generator) (node : ast_node) :
    Option code_generator :=
  match fuel with
  | 0 => none
  | fuel + 1 =>
    if node.child_count ≠ 2 then some g
    else do
      let array ← node.children.head?
      let index ← node.children.get? 1
      let g ← generate_node fuel g array
      let g := append_instruction g "push".data "%rax".data
      let g ← generate_node fuel g index
      let g := append_instruction g "imul".data "$8, %rax".data
      let g := append_instruction g "pop".data "%rbx".data
      let g := append_instruction g "add".data "%rbx, %rax".data
      some (append_instruction g "mov".data "(%rax), %rax".data)

def generate_member_access (fuel : Nat) (g : code_generator) (node : ast_node) :
    Option code_generator :=
  match fuel with
  | 0 => none
  | fuel + 1 =>
    if node.child_count ≠ 2 then some g
    else do
      let object ← node.children.head?
      let access_op ← node.value
      let g ← generate_node fuel g object
      if access_op = ".".data then
        some (append_instruction g "add".data "$0, %rax".data)
      else if access_op = "->".data then
        let g := append_instruction g "mov".data "(%rax), %rax".data
        some (append_instruction g "add".data "$0, %rax".data)
      else some g

def generate_ternary (fuel : Nat) (g : code_generator) (node : ast_node) :
    Option code_generator :=
  match fuel with
  | 0 => none
  | fuel + 1 =>
    if node.child_count ≠ 3 then some g
    else do
      let condition ← node.children.head?
      let true_expr ← node.children.get? 1
      let false_expr ← node.children.get? 2
      let (false_label, g) := generate_label g "ternary_false_".data
      let (end_label, g) := generate_label g "ternary_end_".data
      let g ← generate_node fuel g condition
      let g := append_instruction g "test".data "%rax, %rax".data
      let g := append_instruction g "je".data false_label
      let g ← generate_node fuel g true_expr
      let g := append_instruction g "jmp".data end_label
      let g := append_label g false_label
      let g ← generate_node fuel g false_expr
      some (append_label g end_label)

end

/-- The `.data` loop of generate:
`snprintf("str%d: .ascii \"%s\"\n", i, strings[i])`. -/
def append_data_strings (g : code_generator) (i : Nat) :
    List (List Char) → code_generator
  | [] => g
  | s :: rest =>
    let g := append_string g
      ("str".data ++ natToDec i ++ ": .ascii \"".data ++ s ++ "\"\n".data)
    append_data_strings g (i + 1) rest

/-- generate from code_gen.cpp: lower the AST into the output buffer,
then append `.global _start`, the `.data` section (one `strN: .ascii`
line per interned string), and the `.text` section holding the
synthetic `_start` stub. -/
def generate (fuel : Nat) (g : code_generator) (ast : ast_node) :
    Option code_generator :=
  match fuel with
  | 0 => none
  | fuel + 1 => do
    let g ← generate_node fuel g ast
    let g := append_string g ".global _start\n".data
    let g := append_string g ".section .data\n".data
    let g := append_data_strings g 0 g.strings
    let g := append_string g ".section .text\n".data
    let g := append_string g "_start:\n".data
    let g := append_instruction g "call".data "main".data
    let g := append_instruction g "mov".data "%rax, %rdi".data
    some (generate_syscall g 60)

/-! ## String pool (memory.cpp)

The pool is a malloc block that `realloc` may move.  The model keeps
the block's base address (an integer), its bytes indexed by offset
from the base, and the reference table of absolute addresses handed
out.  `realloc` is given an oracle: the address the resized block
lands at (`none` models allocation failure, after which the C function
returns NULL leaving the pool untouched). -/

/-- `ALIGN_UP(n, align)` for the power-of-two alignments the pool
uses (the bitmask form `(n + align - 1) & ~(align - 1)` equals the
rounded-up multiple). -/
def ALIGN_UP (n align : Nat) : Nat := (n + align - 1) / align * align

def DEFAULT_ALIGN : Nat := 8

def INITIAL_STRING_POOL_SIZE : Nat := 512 * 1024

def INITIAL_STRING_REFS : Nat := 1024

structure string_pool where
  base : Int
  mem : Nat → Option Char
  used : Nat
  capacity : Nat
  string_refs : List Int
  ref_capacity : Nat

def init_string_pool (base : Int) : string_pool :=
  { base := base, mem := fun _ => none, used := 0,
    capacity := INITIAL_STRING_POOL_SIZE, string_refs := [],
    ref_capacity := INITIAL_STRING_REFS }

/-- The capacity-doubling loop of pool_string
(`while (new_capacity < pool->used + aligned_len) new_capacity *= 2`),
started at `capacity * 2`; the fuel can never run out for the
positive capacities the pool maintains. -/
def pool_grow_cap (fuel cap target : Nat) : Nat :=
  match fuel with
  | 0 => cap
  | fuel + 1 => if cap < target then pool_grow_cap fuel (cap * 2) target else cap

/-- Writing `s` byte-for-byte at offset `off` (memcpy). -/
def write_bytes (mem : Nat → Option Char) (off : Nat) : List Char → Nat → Option Char
  | [] => mem
  | c :: rest => write_bytes (fun a => if a = off then some c else mem a) (off + 1) rest

/-- pool_string from memory.cpp.  `realloc_dst` is the oracle address
for a growth step. -/
def pool_string (pool : string_pool) (str : Option (List Char)) (len : Nat)
    (realloc_dst : Option Int) : Option Int × string_pool :=
  match str with
  | none => (none, pool)
  | some s =>
    if len = 0 then (none, pool)
    else
      let aligned_len := ALIGN_UP (len + 1) DEFAULT_ALIGN
      -- grow the byte pool if needed, relocating every recorded reference
      let grown : Option string_pool :=
        if pool.used + aligned_len > pool.capacity then
          match realloc_dst with
          | none => none   -- realloc failed: return NULL, pool untouched
          | some new_base =>
            let new_capacity := pool_grow_cap (pool.used + aligned_len + 1)
              (pool.capacity * 2) (pool.used + aligned_len)
            let offset : Int := new_base - pool.base
            let refs :=
              if offset ≠ 0 then pool.string_refs.map (· + offset)
              else pool.string_refs
            some { pool with base := new_base, capacity := new_capacity,
                             string_refs := refs }
        else some pool
      match grown with
      | none => (none, pool)
      | some pool =>
        -- grow the reference table if needed (the table realloc moves no
        -- recorded string bytes; its failure path is not modelled)
        let pool :=
          if pool.string_refs.length ≥ pool.ref_capacity then
            { pool with ref_capacity := pool.ref_capacity * 2 }
          else pool
        let result : Int := pool.base + pool.used
        let mem := write_bytes pool.mem pool.used (s.take len)
        let mem := write_bytes mem (pool.used + len) ['\x00']
        let pool := { pool with
          mem := mem,
          string_refs := pool.string_refs ++ [result],
          used := pool.used + aligned_len }
        (some result, pool)

/-- One verification run: feed each (string, realloc-oracle) pair to
pool_string with `len = strlen(str)` (the `pool_string_copy` calling
convention used throughout the compiler), accumulating the list of
successfully interned strings. -/
def pool_run (pool : string_pool) (stored : List (List Char)) :
    List (List Char × Option Int) → string_pool × List (List Char)
  | [] => (pool, stored)
  | (x, dst) :: rest =>
    let (res, pool') := pool_string pool (some x) x.length dst
    let stored' := match res with
      | some _ => stored ++ [x]
      | none => stored
    pool_run pool' stored' rest

/-- The i-th recorded reference still dereferences to the originally
stored bytes, NUL-terminated at the original length. -/
def entry_valid (pool : string_pool) (addr : Int) (s : List Char) : Prop :=
  ∃ off : Nat, addr = pool.base + off ∧ off + s.length + 1 ≤ pool.used ∧
    ∀ j : Nat, j ≤ s.length → pool.mem (off + j) = some ((s ++ ['\x00']).getD j '\x00')

/-- Every reference recorded in the table is valid for the string it
was created from. -/
def pool_inv (pool : string_pool) (stored : List (List Char)) : Prop :=
  List.Forall₂ (entry_valid pool) pool.string_refs stored

theorem ALIGN_UP_ge (m : Nat) : m ≤ ALIGN_UP m DEFAULT_ALIGN := by
  simp [ALIGN_UP, DEFAULT_ALIGN]
  omega

theorem write_bytes_out_lt (s : List Char) (mem : Nat → Option Char) (off a : Nat)
    (h : a < off) : write_bytes mem off s a = mem a := by
  induction s generalizing mem off with
  | nil => rfl
  | cons c rest ih =>
    rw [write_bytes]
    rw [ih _ (off + 1) (by omega)]
    simp
    omega

theorem write_bytes_at (s : List Char) (mem : Nat → Option Char) (off j : Nat)
    (hj : j < s.length) : write_bytes mem off s (off + j) = some (s.getD j '\x00') := by
  induction s generalizing mem off j with
  | nil => simp at hj
  | cons c rest ih =>
    rw [write_bytes]
    match j with
    | 0 =>
      rw [write_bytes_out_lt _ _ _ _ (by omega)]
      simp
    | j + 1 =>
      have := ih (fun a => if a = off then some c else mem a) (off + 1) j
        (by simp at hj; omega)
      simp only [List.getD] at this ⊢
      simp only [show off + (j + 1) = off + 1 + j by omega]
      rw [this]
      simp

theorem entry_valid_mono (pool pool' : string_pool) (addr : Int) (s : List Char)
    (hbase : pool'.base = pool.base)
    (hused : pool.used ≤ pool'.used)
    (hmem : ∀ a, a < pool.used → pool'.mem a = pool.mem a)
    (h : entry_valid pool addr s) : entry_valid pool' addr s := by
  obtain ⟨off, h1, h2, h3⟩ := h
  refine ⟨off, by rw [hbase]; exact h1, by omega, fun j hj => ?_⟩
  rw [hmem _ (by omega)]
  exact h3 j hj

theorem entry_valid_reloc (pool pool' : string_pool) (addr : Int) (s : List Char)
    (hmem : pool'.mem = pool.mem) (hused : pool'.used = pool.used)
    (h : entry_valid pool addr s) :
    entry_valid pool' (addr + (pool'.base - pool.base)) s := by
  obtain ⟨off, h1, h2, h3⟩ := h
  refine ⟨off, by omega, by omega, fun j hj => ?_⟩
  rw [hmem]
  exact h3 j hj

theorem forall2_entry_reloc (pool pool' : string_pool) (refs : List Int)
    (stored : List (List Char))
    (hmem : pool'.mem = pool.mem) (hused : pool'.used = pool.used)
    (h : List.Forall₂ (entry_valid pool) refs stored) :
    List.Forall₂ (entry_valid pool')
      (refs.map (· + (pool'.base - pool.base))) stored := by
  induction h with
  | nil => exact List.Forall₂.nil
  | cons hab hrest ih =>
    simp only [List.map_cons]
    exact List.Forall₂.cons (entry_valid_reloc pool pool' _ _ hmem hused hab) ih

theorem forall2_entry_mono (pool pool' : string_pool) (refs : List Int)
    (stored : List (List Char))
    (hbase : pool'.base = pool.base)
    (hused : pool.used ≤ pool'.used)
    (hmem : ∀ a, a < pool.used → pool'.mem a = pool.mem a)
    (h : List.Forall₂ (entry_valid pool) refs stored) :
    List.Forall₂ (entry_valid pool') refs stored := by
  induction h with
  | nil => exact List.Forall₂.nil
  | cons hab hrest ih =>
    exact List.Forall₂.cons (entry_valid_mono pool pool' _ _ hbase hused hmem hab) ih

theorem pool_inv_mono (pool pool' : string_pool) (stored : List (List Char))
    (hbase : pool'.base = pool.base)
    (hused : pool.used ≤ pool'.used)
    (hmem : ∀ a, a < pool.used → pool'.mem a = pool.mem a)
    (hrefs : pool'.string_refs = pool.string_refs)
    (h : pool_inv pool stored) : pool_inv pool' stored := by
  unfold pool_inv at h ⊢
  rw [hrefs]
  exact forall2_entry_mono pool pool' _ stored hbase hused hmem h

theorem forall2_append_one {α β : Type} (R : α → β → Prop) (l1 : List α)
    (l2 : List β) (a : α) (b : β) (h : List.Forall₂ R l1 l2) (hab : R a b) :
    List.Forall₂ R (l1 ++ [a]) (l2 ++ [b]) := by
  induction h with
  | nil => simpa using List.Forall₂.cons hab List.Forall₂.nil
  | cons hxy hrest ih => exact List.Forall₂.cons hxy ih

/-- pool_string preserves the reference-table invariant: the old
entries survive (possibly relocated), and a successful call adds a
valid entry for the new string. -/
theorem pool_string_inv (pool : string_pool) (stored : List (List Char))
    (x : List Char) (dst : Option Int) (h : pool_inv pool stored) :
    pool_inv (pool_string pool (some x) x.length dst).2
      (match (pool_string pool (some x) x.length dst).1 with
       | some _ => stored ++ [x]
       | none => stored) := by
  rw [pool_string]
  by_cases hlen : x.length = 0
  · simp [hlen]
    exact h
  · simp only [if_neg hlen]
    -- the optional growth step
    have grown :
        ∀ pool1 : string_pool,
          pool1.mem = pool.mem → pool1.used = pool.used →
          pool_inv pool1 stored →
          pool_inv
            (let pool2 :=
              if pool1.string_refs.length ≥ pool1.ref_capacity then
                { pool1 with ref_capacity := pool1.ref_capacity * 2 }
              else pool1
             let result : Int := pool2.base + pool2.used
             let mem := write_bytes pool2.mem pool2.used (x.take x.length)
             let mem := write_bytes mem (pool2.used + x.length) ['\x00']
             { pool2 with mem := mem,
                          string_refs := pool2.string_refs ++ [result],
                          used := pool2.used + ALIGN_UP (x.length + 1) DEFAULT_ALIGN })
            (stored ++ [x]) := by
      intro pool1 hmem1 hused1 hinv1
      have hcap : ∀ pool2 : string_pool,
          pool2.base = pool1.base → pool2.mem = pool1.mem →
          pool2.used = pool1.used → pool2.string_refs = pool1.string_refs →
          pool_inv
            { pool2 with
              mem := write_bytes
                (write_bytes pool2.mem pool2.used (x.take x.length))
                (pool2.used + x.length) ['\x00'],
              string_refs := pool2.string_refs ++ [pool2.base + pool2.used],
              used := pool2.used + ALIGN_UP (x.length + 1) DEFAULT_ALIGN }
            (stored ++ [x]) := by
        intro pool2 hb hm hu hr
        have halign := ALIGN_UP_ge (x.length + 1)
        apply forall2_append_one
        · -- the surviving old entries
          have hold : List.Forall₂ (entry_valid pool2) pool2.string_refs stored := by
            have h2 : pool_inv pool2 stored := by
              apply pool_inv_mono pool1 pool2 stored hb (by omega)
                (fun a _ => by rw [hm]) hr
              exact hinv1
            exact h2
          apply forall2_entry_mono pool2 _ pool2.string_refs stored ?_ ?_ ?_ hold
          · rfl
          · show pool2.used ≤ pool2.used + ALIGN_UP (x.length + 1) DEFAULT_ALIGN
            omega
          · intro a ha
            show write_bytes (write_bytes pool2.mem pool2.used (x.take x.length))
              (pool2.used + x.length) ['\x00'] a = pool2.mem a
            rw [write_bytes_out_lt _ _ _ _ (by omega),
              write_bytes_out_lt _ _ _ _ (by omega)]
        · -- the freshly interned entry
          refine ⟨pool2.used, rfl, ?_, fun j hj => ?_⟩
          · show pool2.used + x.length + 1 ≤
              pool2.used + ALIGN_UP (x.length + 1) DEFAULT_ALIGN
            omega
          · show write_bytes (write_bytes pool2.mem pool2.used (x.take x.length))
              (pool2.used + x.length) ['\x00'] (pool2.used + j) =
              some ((x ++ ['\x00']).getD j '\x00')
            by_cases hje : j = x.length
            · subst hje
              have hr0 := write_bytes_at ['\x00']
                (write_bytes pool2.mem pool2.used (x.take x.length))
                (pool2.used + x.length) 0 (by simp)
              simp only [Nat.add_zero] at hr0
              rw [hr0]
              congr 1
              simp [List.getD, List.getElem?_append]
            · have hjlt : j < x.length := by omega
              rw [write_bytes_out_lt _ _ _ _ (by omega)]
              have hr1 := write_bytes_at (x.take x.length) pool2.mem pool2.used j
                (by simp; omega)
              rw [hr1]
              congr 1
              rw [List.take_length]
              simp [List.getD, List.getElem?_append, hjlt]
      split
      · -- the reference table grew: addresses unchanged
        exact hcap _ rfl rfl rfl rfl
      · exact hcap _ rfl rfl rfl rfl
    by_cases hgrow : pool.used + ALIGN_UP (x.length + 1) DEFAULT_ALIGN > pool.capacity
    · simp only [if_pos hgrow]
      match dst with
      | none => simp; exact h
      | some nb =>
        simp only
        split
        case isTrue hoff =>
          exact grown
            { pool with base := nb,
                        capacity := pool_grow_cap (pool.used + ALIGN_UP (x.length + 1) DEFAULT_ALIGN + 1)
                          (pool.capacity * 2) (pool.used + ALIGN_UP (x.length + 1) DEFAULT_ALIGN),
                        string_refs := pool.string_refs.map (· + (nb - pool.base)) }
            rfl rfl
            (by
              unfold pool_inv
              have hfr := forall2_entry_reloc pool
                { pool with base := nb,
                            capacity := pool_grow_cap (pool.used + ALIGN_UP (x.length + 1) DEFAULT_ALIGN + 1)
                              (pool.capacity * 2) (pool.used + ALIGN_UP (x.length + 1) DEFAULT_ALIGN),
                            string_refs := pool.string_refs.map (· + (nb - pool.base)) }
                pool.string_refs stored rfl rfl h
              simpa using hfr)
        case isFalse hoff =>
          exact grown
            { pool with base := nb,
                        capacity := pool_grow_cap (pool.used + ALIGN_UP (x.length + 1) DEFAULT_ALIGN + 1)
                          (pool.capacity * 2) (pool.used + ALIGN_UP (x.length + 1) DEFAULT_ALIGN),
                        string_refs := pool.string_refs }
            rfl rfl
            (by
              apply pool_inv_mono pool
                { pool with base := nb,
                            capacity := pool_grow_cap (pool.used + ALIGN_UP (x.length + 1) DEFAULT_ALIGN + 1)
                              (pool.capacity * 2) (pool.used + ALIGN_UP (x.length + 1) DEFAULT_ALIGN),
                            string_refs := pool.string_refs }
                stored ?_ (le_refl _) (fun a _ => rfl) rfl h
              show nb = pool.base
              omega)
    · simp only [if_neg hgrow]
      exact grown pool rfl rfl h

/-- After an arbitrary run of pool_string operations, every recorded
reference is still valid. -/
theorem pool_run_inv (ops : List (List Char × Option Int)) (pool : string_pool)
    (stored : List (List Char)) (h : pool_inv pool stored) :
    pool_inv (pool_run pool stored ops).1 (pool_run pool stored ops).2 := by
  induction ops generalizing pool stored with
  | nil => exact h
  | cons op rest ih =>
    obtain ⟨x, dst⟩ := op
    rw [pool_run]
    exact ih _ _ (pool_string_inv pool stored x dst h)

/-- C9: after an arbitrary sequence of pool_string operations starting
from a fresh pool, every address recorded in the reference table is
still dereferenceable and yields the originally stored bytes,
NUL-terminated at the original length, even across growth steps that
relocate the backing buffer (arbitrary realloc destinations). -/
theorem c9_pool_refs_remain_valid (base : Int)
    (ops : List (List Char × Option Int)) :
    pool_inv (pool_run (init_string_pool base) [] ops).1
      (pool_run (init_string_pool base) [] ops).2 := by
  apply pool_run_inv
  unfold pool_inv init_string_pool
  exact List.Forall₂.nil

/-! ### Heap model for free_node (ast.cpp)

free_node observably mutates the heap, so it is modelled over an
explicit address store: `node_store.nodes` maps addresses to node
records, `free_node` recursively frees the children and then removes
the node itself (a later dereference of a freed address is
use-after-free, modelled as `none`). -/

structure heap_node where
  type : node_type
  value : Option (List Char)
  children : List (Option Nat)
  deriving DecidableEq, Repr

structure node_store where
  nodes : List (Nat × heap_node)
  deriving DecidableEq, Repr

def store_lookup (s : node_store) (a : Nat) : Option heap_node :=
  (s.nodes.find? (fun p => p.1 == a)).map Prod.snd

def store_remove (s : node_store) (a : Nat) : node_store :=
  { s with nodes := s.nodes.filter (fun p => p.1 != a) }

/-- free_node from ast.cpp:102-123: NULL is ignored; otherwise all
children are freed recursively (the `for` loop is the fold) and then
the node's own storage is released.  Fuel 0 or a dangling address is
`none`. -/
def free_node (fuel : Nat) (s : node_store) (node : Option Nat) :
    Option node_store :=
  match fuel with
  | 0 => none
  | fuel + 1 =>
    match node with
    | none => some s
    | some addr =>
      match store_lookup s addr with
      | none => none
      | some hn =>
        match hn.children.foldl
            (fun acc c =>
              match acc with
              | none => none
              | some s1 => free_node fuel s1 c) (some s) with
        | none => none
        | some s1 => some (store_remove s1 addr)

/-- The `for (int i = 0; i < node->child_count; i++) free_node(...)`
loop of free_node. -/
def free_children (fuel : Nat) (s : node_store) (cs : List (Option Nat)) :
    Option node_store :=
  cs.foldl
    (fun acc c =>
      match acc with
      | none => none
      | some s1 => free_node fuel s1 c) (some s)

theorem free_node_succ (fuel : Nat) (s : node_store) (addr : Nat) :
    free_node (fuel + 1) s (some addr) =
      match store_lookup s addr with
      | none => none
      | some hn =>
        match free_children fuel s hn.children with
        | none => none
        | some s1 => some (store_remove s1 addr) := rfl

theorem store_lookup_remove (s : node_store) (a : Nat) :
    store_lookup (store_remove s a) a = none := by
  simp only [store_lookup, store_remove]
  have hfind : ∀ l : List (Nat × heap_node),
      (l.filter (fun p => p.1 != a)).find? (fun p => p.1 == a) = none := by
    intro l
    induction l with
    | nil => rfl
    | cons p rest ih =>
      by_cases hp : p.1 = a
      · simp [List.filter_cons, hp, ih]
      · simp [List.filter_cons, hp, List.find?_cons, ih]
  rw [hfind]
  rfl

/-- A one-node store used to exercise free_node concretely. -/
def c8_store : node_store :=
  { nodes := [(1, { type := node_type.NODE_NUMBER_LITERAL,
                    value := some ['4', '2'], children := [] })] }

/-- C8 counterexample: free_node is not a no-op.  Before the call the
node at address 1 is observable in the store; free_node succeeds and
afterwards looking the node up yields nothing — the node, its value
and its storage are gone (ast.cpp:102-123 frees the children array,
the value and the node itself). -/
theorem c8_free_node_not_noop :
    store_lookup c8_store 1 ≠ none ∧
    (free_node 2 c8_store (some 1)).map (fun s => (s, store_lookup s 1)) =
      some ({ nodes := [] }, none) := by
  decide

/-- C8 (amended): free_node genuinely frees — whenever it succeeds on
a non-NULL node pointer, the node's address no longer resolves in the
resulting store. -/
theorem c8_free_node_frees (fuel : Nat) (s s' : node_store) (addr : Nat)
    (h : free_node fuel s (some addr) = some s') :
    store_lookup s' addr = none := by
  cases fuel with
  | zero => exact absurd h (by simp [free_node])
  | succ f =>
    rw [free_node_succ] at h
    split at h
    · exact absurd h (by simp)
    · split at h
      · exact absurd h (by simp)
      · rename_i s1 hc
        simp only [Option.some.injEq] at h
        subst h
        exact store_lookup_remove s1 addr

/-- The hypothesis of c8_free_node_frees is satisfiable: freeing the
node at address 1 of c8_store succeeds and the address then dangles. -/
theorem c8_free_node_frees_witness :
    free_node 2 c8_store (some 1) = some { nodes := [] } ∧
    store_lookup { nodes := [] } 1 = none :=
  ⟨by decide, c8_free_node_frees 2 c8_store { nodes := [] } 1 (by decide)⟩

/-! ## Substring utilities for stating facts about emitted assembly -/

def contains_sub (pat : List Char) : List Char → Bool
  | [] => pat.isPrefixOf []
  | c :: rest => pat.isPrefixOf (c :: rest) || contains_sub pat rest

def count_occurrences (pat : List Char) : List Char → Nat
  | [] => if pat.isPrefixOf [] then 1 else 0
  | c :: rest =>
    (if pat.isPrefixOf (c :: rest) then 1 else 0) + count_occurrences pat rest

def index_of_sub_go (pat : List Char) (i : Nat) : List Char → Option Nat
  | [] => if pat.isPrefixOf [] then some i else none
  | c :: rest =>
    if pat.isPrefixOf (c :: rest) then some i
    else index_of_sub_go pat (i + 1) rest

/-- Index of the first occurrence of `pat` in `s`. -/
def index_of_sub (pat s : List Char) : Option Nat :=
  index_of_sub_go pat 0 s

def opt_lt : Option Nat → Option Nat → Bool
  | some a, some b => decide (a < b)
  | _, _ => false

/-! ## Concrete inputs for the emitter claims

The parser cannot produce these ASTs (parsing any literal crashes in
previous_token/string_duplicate, see C1), so the trees the spec's
grammar assigns to the example programs are built directly. -/

/-- The if statement of `i32 main() \x7b if (1) \x7b return 7; \x7d else \x7b
return 9; \x7d \x7d`.  Within the program's compilation the surrounding
nodes only wrap this emission: the program node dispatches to the
function, and the function contributes its label and prologue before
the body and one unconditional epilogue after it. -/
def if_stmt_ast : ast_node :=
  .mk .NODE_IF_STATEMENT none
    [ .mk .NODE_NUMBER_LITERAL (some "1".data) [] 1,
      .mk .NODE_BLOCK none
        [ .mk .NODE_RETURN_STATEMENT none
            [ .mk .NODE_NUMBER_LITERAL (some "7".data) [] 7 ] 0 ] 0,
      .mk .NODE_BLOCK none
        [ .mk .NODE_RETURN_STATEMENT none
            [ .mk .NODE_NUMBER_LITERAL (some "9".data) [] 9 ] 0 ] 0
    ] 0

/-- The assembly emitted for the program's if statement, started from a
fresh generator (label_counter 0, as generate_if_statement sees it:
the enclosing function emission allocates no labels before it). -/
def c5_output : List Char :=
  match generate_if_statement 8
      (create_code_generator .ARCH_X86_64 .OPT_NONE) if_stmt_ast with
  | some g => g.output
  | none => []

set_option maxHeartbeats 1000000 in
/-- The if-statement emission, evaluated once. -/
theorem c5_output_val : c5_output =
    ("    mov $1, %rax\n    test %rax, %rax\n    je else_0\n    mov $7, %rax\n    mov %rbp, %rsp\n    pop %rbp\n    ret\n    jmp endif_1\nelse_0:\n    mov $9, %rax\n    mov %rbp, %rsp\n    pop %rbp\n    ret\nendif_1:\n").data := rfl

/-- A one-statement program whose expression is the string literal
"hi": the smallest program that both emits an instruction and interns
a string, so every part of generate's footer is exercised. -/
def string_prog_ast : ast_node :=
  .mk .NODE_PROGRAM none
    [ .mk .NODE_EXPRESSION_STATEMENT none
        [ .mk .NODE_STRING_LITERAL (some "hi".data) [] 0 ] 0 ] 0

/-- The full output of generate on string_prog_ast. -/
def c6_output : List Char :=
  match generate 6 (create_code_generator .ARCH_X86_64 .OPT_NONE)
      string_prog_ast with
  | some g => g.output
  | none => []

set_option maxHeartbeats 1000000 in
/-- The full generate output, evaluated once. -/
theorem c6_output_val : c6_output =
    ("    mov $str0, %rax\n.global _start\n.section .data\nstr0: .ascii \"hi\"\n.section .text\n_start:\n    call main\n    mov %rax, %rdi\n    mov $60, %rax\n    syscall\n").data := rfl

/-- A switch statement with one case and a default, as the parser's
grammar would shape it: scrutinee first, then the case-list block. -/
def switch_ast : ast_node :=
  .mk .NODE_SWITCH_STATEMENT none
    [ .mk .NODE_NUMBER_LITERAL (some "1".data) [] 1,
      .mk .NODE_BLOCK none
        [ .mk .NODE_CASE_STATEMENT none
            [ .mk .NODE_NUMBER_LITERAL (some "1".data) [] 1,
              .mk .NODE_RETURN_STATEMENT none
                [ .mk .NODE_NUMBER_LITERAL (some "2".data) [] 2 ] 0 ] 0,
          .mk .NODE_DEFAULT_STATEMENT none
            [ .mk .NODE_RETURN_STATEMENT none
                [ .mk .NODE_NUMBER_LITERAL (some "3".data) [] 3 ] 0 ] 0 ] 0 ] 0

/-- C1: no successfully parsed binary expression exists — parsing even
the claim's own example `2 + 3` crashes: parse_primary advances past
the number and then builds the literal's value from
previous_token(parser)->value, which the previous_token stub pins at
NULL, so string_duplicate runs strlen(NULL) (undefined behaviour,
modelled as `none`).  No BINARY_OP node carrying "+" is ever
produced. -/
theorem c1_binary_op_value_crash :
    parse_expression 100 (create_parser_state (create_lexer "2 + 3".data)) =
      none := by rfl

/-- C2: a well-formed input whose parse fails validation.  The program
`i32 main() \x7b for (;;) \x7b\x7d return; \x7d` is grammatical (all three for
clauses may be empty), yet validate_ast on the parse result is false:
parse_for_statement records each omitted clause as add_child(for_node,
NULL), which add_child silently drops, leaving the FOR_STATEMENT with
one child where validate_ast demands 3 or 4. -/
theorem c2_validate_after_parse_false :
    (parse_source 200
        "i32 main() \x7b for (;;) \x7b\x7d return; \x7d".data).map
      (fun r => validate_ast r.1) = some false := by rfl

/-- C3: parsing `for (;;) \x7b\x7d` yields a FOR_STATEMENT with exactly one
child (the body).  The NULL sentinels for the omitted init/cond/step
clauses are dropped by add_child's NULL guard, not stored, so the
node does not have 3 or 4 children and the clause positions are not
preserved. -/
theorem c3_for_children_dropped :
    (parse_statement 100
        (create_parser_state (create_lexer "for (;;) \x7b\x7d".data))).map
      (fun r => r.1.map (fun n => (n.type, n.child_count))) =
      some (some (.NODE_FOR_STATEMENT, 1)) := by rfl

/-- C4: the root dispatcher generate_node has no case for
NODE_SWITCH_STATEMENT, so any switch node reaching it falls to
`default:`, which only emits a debug comment — with debug info off
(the default) the generator comes back completely unchanged and no
scrutinee/compare/jump/body/add-$8 code is emitted.  The claimed
sequence lives only in generate_switch_statement, which no dispatch
path ever calls. -/
theorem c4_switch_dispatch_missing (fuel : Nat) (g : code_generator)
    (node : ast_node) (h1 : node.type = .NODE_SWITCH_STATEMENT)
    (h2 : g.debug_info = false) :
    generate_node (fuel + 1) g node = some g := by
  rw [generate_node, h2, h1]
  simp [append_comment, h2]

/-- The hypotheses of c4_switch_dispatch_missing are satisfiable: a
concrete switch AST under a fresh generator reaches the dispatcher and
leaves it untouched. -/
theorem c4_switch_dispatch_missing_witness :
    switch_ast.type = .NODE_SWITCH_STATEMENT ∧
    (create_code_generator .ARCH_X86_64 .OPT_NONE).debug_info = false ∧
    generate_node 1 (create_code_generator .ARCH_X86_64 .OPT_NONE) switch_ast =
      some (create_code_generator .ARCH_X86_64 .OPT_NONE) :=
  ⟨rfl, rfl, c4_switch_dispatch_missing 0
    (create_code_generator .ARCH_X86_64 .OPT_NONE) switch_ast rfl rfl⟩

set_option maxRecDepth 8000 in
/-- C5 counterexample: compiling the claim's if-else produces the label
else_0 but never the claimed endif_0 — generate_if_statement draws
both labels from the one shared label_counter (else_ takes 0, endif_
takes 1); no per-prefix counter exists. -/
theorem c5_original_labels_absent :
    contains_sub "else_0".data c5_output = true ∧
    contains_sub "endif_0".data c5_output = false := by
  rw [c5_output_val]
  decide

set_option maxRecDepth 8000 in
/-- C5: emitting the if statement of `i32 main() \x7b if (1) \x7b return 7;
\x7d else \x7b return 9; \x7d \x7d` yields the freshly numbered labels else_0
and endif_1 (one shared monotonically increasing counter numbers every
prefix), a test %rax, %rax, a je else_0, and one epilogue per return
branch — two here; generate_function unconditionally appends a third
after the body, so the compiled function carries three epilogues, not
two. -/
theorem c5_if_else_output :
    contains_sub "else_0:".data c5_output = true ∧
    contains_sub "endif_1:".data c5_output = true ∧
    contains_sub "    test %rax, %rax\n".data c5_output = true ∧
    contains_sub "    je else_0\n".data c5_output = true ∧
    count_occurrences "    mov %rbp, %rsp\n    pop %rbp\n    ret\n".data
      c5_output = 2 := by
  rw [c5_output_val]
  decide

set_option maxRecDepth 8000 in
/-- C6 counterexample: the program's instruction is not in the .text
section — its one occurrence precedes the `.section .text` directive
(generate lowers the AST into the buffer first and appends the
directives afterwards), so the .text body holds only the _start
stub. -/
theorem c6_text_section_empty :
    count_occurrences "    mov $str0, %rax\n".data c6_output = 1 ∧
    opt_lt (index_of_sub "    mov $str0, %rax\n".data c6_output)
      (index_of_sub ".section .text\n".data c6_output) = true := by
  rw [c6_output_val]
  decide

set_option maxRecDepth 8000 in
/-- C6: the emitted assembly ENDS with the footer — `.global _start`,
the .data section with one strN: .ascii line per interned string, and
a .text section containing only the synthetic _start stub (call main;
mov %rax, %rdi; exit via syscall 60) — while the program's own
instructions come BEFORE the footer, not inside the .text section. -/
theorem c6_footer_is_suffix :
    List.isSuffixOf
      (".global _start\n.section .data\nstr0: .ascii \"hi\"\n.section .text\n_start:\n    call main\n    mov %rax, %rdi\n    mov $60, %rax\n    syscall\n").data
      c6_output = true ∧
    opt_lt (index_of_sub "    mov $str0, %rax\n".data c6_output)
      (index_of_sub ".global _start\n".data c6_output) = true := by
  rw [c6_output_val]
  decide

/-! ## Lexeme spans (claim C7)

Every token the scanner emits, other than EOF and the quote-stripping
string/char literals, carries as its lexeme exactly the bytes it
consumed.  The lemmas below establish that per branch of next_token,
and the round-trip theorem chains them over a whole run. -/

theorem advance_pos_bound (lx : lexer) (h : lx.position ≤ lx.length) :
    (advance lx).position ≤ (advance lx).length := by
  unfold advance
  split
  · split <;> simp <;> omega
  · simpa using h

theorem skip_whitespace_pos_bound (fuel : Nat) (lx : lexer)
    (h : lx.position ≤ lx.length) :
    (skip_whitespace fuel lx).position ≤ (skip_whitespace fuel lx).length := by
  induction fuel generalizing lx with
  | zero => simpa [skip_whitespace] using h
  | succ fuel ih =>
    rw [skip_whitespace]
    repeat' split
    all_goals first
      | exact ih _ (advance_pos_bound _ h)
      | simpa using h

theorem skip_line_comment_loop_pos_bound (fuel : Nat) (lx : lexer)
    (h : lx.position ≤ lx.length) :
    (skip_line_comment_loop fuel lx).position ≤
      (skip_line_comment_loop fuel lx).length := by
  induction fuel generalizing lx with
  | zero => simpa [skip_line_comment_loop] using h
  | succ fuel ih =>
    rw [skip_line_comment_loop]
    repeat' split
    all_goals first
      | exact ih _ (advance_pos_bound _ h)
      | simpa using h

theorem skip_block_comment_loop_pos_bound (fuel : Nat) (lx : lexer)
    (h : lx.position ≤ lx.length) :
    (skip_block_comment_loop fuel lx).position ≤
      (skip_block_comment_loop fuel lx).length := by
  induction fuel generalizing lx with
  | zero => simpa [skip_block_comment_loop] using h
  | succ fuel ih =>
    rw [skip_block_comment_loop]
    repeat' split
    all_goals first
      | exact advance_pos_bound _ (advance_pos_bound _ h)
      | exact ih _ (advance_pos_bound _ h)
      | simpa using h

theorem read_digits_pos_bound (fuel : Nat) (lx : lexer)
    (h : lx.position ≤ lx.length) :
    (read_digits fuel lx).position ≤ (read_digits fuel lx).length := by
  induction fuel generalizing lx with
  | zero => simpa [read_digits] using h
  | succ fuel ih =>
    rw [read_digits]
    repeat' split
    all_goals first
      | exact ih _ (advance_pos_bound _ h)
      | simpa using h

theorem read_identifier_loop_pos_bound (fuel : Nat) (lx : lexer)
    (h : lx.position ≤ lx.length) :
    (read_identifier_loop fuel lx).position ≤
      (read_identifier_loop fuel lx).length := by
  induction fuel generalizing lx with
  | zero => simpa [read_identifier_loop] using h
  | succ fuel ih =>
    rw [read_identifier_loop]
    repeat' split
    all_goals first
      | exact ih _ (advance_pos_bound _ h)
      | simpa using h

theorem read_string_loop_pos_bound (fuel : Nat) (lx : lexer)
    (h : lx.position ≤ lx.length) :
    (read_string_loop fuel lx).position ≤ (read_string_loop fuel lx).length := by
  induction fuel generalizing lx with
  | zero => simpa [read_string_loop] using h
  | succ fuel ih =>
    rw [read_string_loop]
    repeat' split
    all_goals first
      | exact ih _ (advance_pos_bound _ (advance_pos_bound _ h))
      | exact ih _ (advance_pos_bound _ h)
      | simpa using h

theorem peek_eq_imp_lt (lx : lexer) (c : Char) (h : peek lx 1 = c)
    (hc : c ≠ '\x00') : lx.position + 1 < lx.length := by
  by_cases hge : lx.position + 1 ≥ lx.length
  · exfalso
    apply hc
    rw [← h]
    unfold peek
    simp [hge]
  · omega

theorem advance2_pos (lx : lexer) (h : lx.position + 1 < lx.length) :
    (advance (advance lx)).position = lx.position + 2 := by
  have h1 : lx.position < lx.length := by omega
  have h2 := advance_pos_of_lt lx h1
  have h3 : (advance lx).position < (advance lx).length := by
    rw [h2, advance_length]; exact h
  rw [advance_pos_of_lt _ h3, h2]

theorem drop_take_one (s : List Char) (p : Nat) (h : p < s.length) :
    (s.drop p).take 1 = [s.getD p ' '] := by
  rw [List.drop_eq_getElem_cons h, List.take_succ_cons, List.take_zero,
    List.getD_eq_getElem s ' ' h]

theorem drop_take_two (s : List Char) (p : Nat) (h : p + 1 < s.length) :
    (s.drop p).take 2 = [s.getD p ' ', s.getD (p + 1) ' '] := by
  rw [List.drop_eq_getElem_cons (by omega : p < s.length),
    List.drop_eq_getElem_cons h, List.take_succ_cons, List.take_succ_cons,
    List.take_zero, List.getD_eq_getElem s ' ' (by omega : p < s.length),
    List.getD_eq_getElem s ' ' h]

/-- The span property of one next_token step, measured from start
position `p0`: unless the token is EOF or one of the two
quote-stripping literals, the lexeme is exactly the consumed slice
`[p1, position')` for some skip point `p1` past `p0`. -/
def span_ok (src : List Char) (p0 : Nat) (t : token) (lx' : lexer) : Prop :=
  (t.type ≠ .TOKEN_EOF ∧ t.type ≠ .TOKEN_STRING ∧ t.type ≠ .TOKEN_CHAR) →
    lx'.source = src ∧ lx'.length = src.length ∧
    ∃ p1, p0 ≤ p1 ∧ p1 < lx'.position ∧ lx'.position ≤ src.length ∧
      t.value = some ((src.drop p1).take (lx'.position - p1))

theorem span_ok_mono (src : List Char) (p0 q0 : Nat) (t : token) (lx' : lexer)
    (h : span_ok src q0 t lx') (hle : p0 ≤ q0) : span_ok src p0 t lx' := by
  intro hty
  obtain ⟨h1, h2, p1, hp1, hp2, hp3, hp4⟩ := h hty
  exact ⟨h1, h2, p1, le_trans hle hp1, hp2, hp3, hp4⟩

theorem cur_eq_getD (lx : lexer) : cur lx = lx.source.getD lx.position ' ' := rfl

theorem peek_eq_getD (lx : lexer) (h : lx.position + 1 < lx.length) :
    peek lx 1 = lx.source.getD (lx.position + 1) ' ' := by
  unfold peek
  simp only []
  rw [if_neg (by omega)]

theorem read_digits_pos_lt (fuel : Nat) (lx : lexer) (hf : 1 ≤ fuel)
    (hp : lx.position < lx.length) (hd : (cur lx).isDigit = true) :
    lx.position < (read_digits fuel lx).position := by
  match fuel with
  | fuel + 1 =>
    rw [read_digits, if_pos hp, if_pos hd]
    calc lx.position < lx.position + 1 := by omega
      _ = (advance lx).position := (advance_pos_of_lt lx hp).symm
      _ ≤ _ := read_digits_pos_le fuel (advance lx)

theorem ident_start_char (c : Char) (h : is_valid_identifier_start c = true) :
    is_valid_identifier_char c = true := by
  unfold is_valid_identifier_start at h
  unfold is_valid_identifier_char Char.isAlphanum
  rcases Bool.or_eq_true_iff.mp h with h1 | h1 <;> simp [h1]

theorem read_identifier_loop_pos_lt (fuel : Nat) (lx : lexer) (hf : 1 ≤ fuel)
    (hp : lx.position < lx.length)
    (hd : is_valid_identifier_char (cur lx) = true) :
    lx.position < (read_identifier_loop fuel lx).position := by
  match fuel with
  | fuel + 1 =>
    rw [read_identifier_loop, if_pos hp, if_pos hd]
    calc lx.position < lx.position + 1 := by omega
      _ = (advance lx).position := (advance_pos_of_lt lx hp).symm
      _ ≤ _ := read_identifier_loop_pos_le fuel (advance lx)

/-- Dispatch closer: a two-character operator token. -/
theorem span_ok_two (ls : lexer) (p0 : Nat) (ty : token_type) (c1 c2 : Char)
    (hwf : ls.length = ls.source.length) (hle : p0 ≤ ls.position)
    (hc1 : cur ls = c1) (hc2 : peek ls 1 = c2) (hnz : c2 ≠ '\x00') :
    span_ok ls.source p0
      { type := ty, value := some [c1, c2], line := ls.line, column := ls.column }
      (advance (advance ls)) := by
  intro _
  have hlt : ls.position + 1 < ls.length := peek_eq_imp_lt ls c2 hc2 hnz
  have hpos := advance2_pos ls hlt
  refine ⟨by rw [advance_source, advance_source],
          by rw [advance_length, advance_length, hwf],
          ls.position, hle, by omega, by omega, ?_⟩
  rw [hpos]
  have : ls.position + 2 - ls.position = 2 := by omega
  rw [this, drop_take_two ls.source ls.position (by omega)]
  rw [← cur_eq_getD, ← peek_eq_getD ls hlt, hc1, hc2]

/-- Dispatch closer: a one-character token (operators, punctuation,
the newline token and the invalid-byte token). -/
theorem span_ok_one (ls : lexer) (p0 : Nat) (ty : token_type) (c1 : Char)
    (hwf : ls.length = ls.source.length) (hle : p0 ≤ ls.position)
    (hp : ls.position < ls.length) (hc1 : cur ls = c1) :
    span_ok ls.source p0
      { type := ty, value := some [c1], line := ls.line, column := ls.column }
      (advance ls) := by
  intro _
  have hpos := advance_pos_of_lt ls hp
  refine ⟨advance_source ls, by rw [advance_length, hwf],
          ls.position, hle, by omega, by omega, ?_⟩
  rw [hpos]
  have : ls.position + 1 - ls.position = 1 := by omega
  rw [this, drop_take_one ls.source ls.position (by omega)]
  rw [← cur_eq_getD, hc1]

theorem rd_adv_le (f : Nat) (x : lexer) :
    x.position ≤ (read_digits f (advance x)).position :=
  le_trans (advance_pos_le x) (read_digits_pos_le f (advance x))

theorem rd_adv2_le (f : Nat) (x : lexer) :
    x.position ≤ (read_digits f (advance (advance x))).position :=
  le_trans (advance_pos_le x) (rd_adv_le f (advance x))

theorem rd_adv_bound (f : Nat) (x : lexer) (h : x.position ≤ x.length) :
    (read_digits f (advance x)).position ≤ (read_digits f (advance x)).length :=
  read_digits_pos_bound f _ (advance_pos_bound x h)

theorem rd_adv2_bound (f : Nat) (x : lexer) (h : x.position ≤ x.length) :
    (read_digits f (advance (advance x))).position ≤
      (read_digits f (advance (advance x))).length :=
  read_digits_pos_bound f _ (advance_pos_bound _ (advance_pos_bound x h))

/-- Dispatch closer: a number literal.  The lexeme is built in the
source itself as the slice from the first digit to the scan end. -/
theorem span_ok_number (fuel : Nat) (ls : lexer) (p0 col : Nat)
    (hwf : ls.length = ls.source.length) (hb : ls.position ≤ ls.length)
    (hle : p0 ≤ ls.position) (hp : ls.position < ls.length)
    (hd : (cur ls).isDigit = true) (hf : 1 ≤ fuel) :
    span_ok ls.source p0 (read_number fuel ls col).1 (read_number fuel ls col).2 := by
  intro _
  unfold read_number
  simp only []
  repeat' split
  all_goals refine ⟨?_, ?_, ls.position, hle, ?_, ?_, ?_⟩
  all_goals solve
    | simp [string_duplicate, read_digits_source, advance_source]
    | simp [read_digits_length, advance_length, hwf]
    | exact read_digits_pos_lt fuel ls hf hp hd
    | exact lt_of_lt_of_le (read_digits_pos_lt fuel ls hf hp hd) (rd_adv_le _ _)
    | exact lt_of_lt_of_le (read_digits_pos_lt fuel ls hf hp hd) (rd_adv2_le _ _)
    | exact lt_of_lt_of_le (read_digits_pos_lt fuel ls hf hp hd)
        (le_trans (rd_adv_le _ _) (rd_adv_le _ _))
    | exact lt_of_lt_of_le (read_digits_pos_lt fuel ls hf hp hd)
        (le_trans (rd_adv_le _ _) (rd_adv2_le _ _))
    | simpa [read_digits_length, advance_length, hwf] using
        read_digits_pos_bound fuel ls hb
    | simpa [read_digits_length, advance_length, hwf] using
        rd_adv_bound _ _ (read_digits_pos_bound _ _ hb)
    | simpa [read_digits_length, advance_length, hwf] using
        rd_adv2_bound _ _ (read_digits_pos_bound _ _ hb)
    | simpa [read_digits_length, advance_length, hwf] using
        rd_adv_bound _ _ (rd_adv_bound _ _ (read_digits_pos_bound _ _ hb))
    | simpa [read_digits_length, advance_length, hwf] using
        rd_adv2_bound _ _ (rd_adv_bound _ _ (read_digits_pos_bound _ _ hb))

/-- Dispatch closer: an identifier or keyword.  Both carry the scanned
slice as their lexeme (the keyword lookup happens after the read). -/
theorem span_ok_ident (fuel : Nat) (ls : lexer) (p0 col : Nat)
    (hwf : ls.length = ls.source.length) (hb : ls.position ≤ ls.length)
    (hle : p0 ≤ ls.position) (hp : ls.position < ls.length)
    (hd : is_valid_identifier_start (cur ls) = true) (hf : 1 ≤ fuel) :
    span_ok ls.source p0 (read_identifier fuel ls col).1
      (read_identifier fuel ls col).2 := by
  intro _
  unfold read_identifier
  simp only []
  refine ⟨?_, ?_, ls.position, hle, ?_, ?_, ?_⟩
  · simp [read_identifier_loop_source]
  · simp [read_identifier_loop_length, hwf]
  · exact read_identifier_loop_pos_lt fuel ls hf hp (ident_start_char _ hd)
  · simpa [read_identifier_loop_length, hwf] using
      read_identifier_loop_pos_bound fuel ls hb
  · simp [string_duplicate, read_identifier_loop_source]


/-- The span property of the dispatch: every token it returns other
than a string or char literal carries its consumed slice as lexeme. -/
theorem next_token_dispatch_span (fuel : Nat) (ls : lexer) (p0 : Nat)
    (hwfs : ls.length = ls.source.length) (hb : ls.position ≤ ls.length)
    (hle : p0 ≤ ls.position) (hlt : ls.position < ls.length) (hf : 1 ≤ fuel)
    (t : token) (lx' : lexer)
    (heq : next_token_dispatch fuel ls = (t, lx')) :
    span_ok ls.source p0 t lx' := by
  rw [next_token_dispatch] at heq
  by_cases hc1 : cur ls = '+' ∧ peek ls 1 = '+'
  · rw [if_pos hc1] at heq
    have h1 := congrArg Prod.fst heq
    have h2 := congrArg Prod.snd heq
    simp only [] at h1 h2
    subst h1
    subst h2
    exact span_ok_two _ p0 _ _ _ hwfs hle hc1.1 hc1.2 (by decide)
  · rw [if_neg hc1] at heq
    by_cases hc2 : cur ls = '-' ∧ peek ls 1 = '-'
    · rw [if_pos hc2] at heq
      have h1 := congrArg Prod.fst heq
      have h2 := congrArg Prod.snd heq
      simp only [] at h1 h2
      subst h1
      subst h2
      exact span_ok_two _ p0 _ _ _ hwfs hle hc2.1 hc2.2 (by decide)
    · rw [if_neg hc2] at heq
      by_cases hc3 : cur ls = '+' ∧ peek ls 1 = '='
      · rw [if_pos hc3] at heq
        have h1 := congrArg Prod.fst heq
        have h2 := congrArg Prod.snd heq
        simp only [] at h1 h2
        subst h1
        subst h2
        exact span_ok_two _ p0 _ _ _ hwfs hle hc3.1 hc3.2 (by decide)
      · rw [if_neg hc3] at heq
        by_cases hc4 : cur ls = '-' ∧ peek ls 1 = '='
        · rw [if_pos hc4] at heq
          have h1 := congrArg Prod.fst heq
          have h2 := congrArg Prod.snd heq
          simp only [] at h1 h2
          subst h1
          subst h2
          exact span_ok_two _ p0 _ _ _ hwfs hle hc4.1 hc4.2 (by decide)
        · rw [if_neg hc4] at heq
          by_cases hc5 : cur ls = '*' ∧ peek ls 1 = '='
          · rw [if_pos hc5] at heq
            have h1 := congrArg Prod.fst heq
            have h2 := congrArg Prod.snd heq
            simp only [] at h1 h2
            subst h1
            subst h2
            exact span_ok_two _ p0 _ _ _ hwfs hle hc5.1 hc5.2 (by decide)
          · rw [if_neg hc5] at heq
            by_cases hc6 : cur ls = '/' ∧ peek ls 1 = '='
            · rw [if_pos hc6] at heq
              have h1 := congrArg Prod.fst heq
              have h2 := congrArg Prod.snd heq
              simp only [] at h1 h2
              subst h1
              subst h2
              exact span_ok_two _ p0 _ _ _ hwfs hle hc6.1 hc6.2 (by decide)
            · rw [if_neg hc6] at heq
              by_cases hc7 : cur ls = '%' ∧ peek ls 1 = '='
              · rw [if_pos hc7] at heq
                have h1 := congrArg Prod.fst heq
                have h2 := congrArg Prod.snd heq
                simp only [] at h1 h2
                subst h1
                subst h2
                exact span_ok_two _ p0 _ _ _ hwfs hle hc7.1 hc7.2 (by decide)
              · rw [if_neg hc7] at heq
                by_cases hc8 : cur ls = '=' ∧ peek ls 1 = '='
                · rw [if_pos hc8] at heq
                  have h1 := congrArg Prod.fst heq
                  have h2 := congrArg Prod.snd heq
                  simp only [] at h1 h2
                  subst h1
                  subst h2
                  exact span_ok_two _ p0 _ _ _ hwfs hle hc8.1 hc8.2 (by decide)
                · rw [if_neg hc8] at heq
                  by_cases hc9 : cur ls = '!' ∧ peek ls 1 = '='
                  · rw [if_pos hc9] at heq
                    have h1 := congrArg Prod.fst heq
                    have h2 := congrArg Prod.snd heq
                    simp only [] at h1 h2
                    subst h1
                    subst h2
                    exact span_ok_two _ p0 _ _ _ hwfs hle hc9.1 hc9.2 (by decide)
                  · rw [if_neg hc9] at heq
                    by_cases hc10 : cur ls = '<' ∧ peek ls 1 = '='
                    · rw [if_pos hc10] at heq
                      have h1 := congrArg Prod.fst heq
                      have h2 := congrArg Prod.snd heq
                      simp only [] at h1 h2
                      subst h1
                      subst h2
                      exact span_ok_two _ p0 _ _ _ hwfs hle hc10.1 hc10.2 (by decide)
                    · rw [if_neg hc10] at heq
                      by_cases hc11 : cur ls = '>' ∧ peek ls 1 = '='
                      · rw [if_pos hc11] at heq
                        have h1 := congrArg Prod.fst heq
                        have h2 := congrArg Prod.snd heq
                        simp only [] at h1 h2
                        subst h1
                        subst h2
                        exact span_ok_two _ p0 _ _ _ hwfs hle hc11.1 hc11.2 (by decide)
                      · rw [if_neg hc11] at heq
                        by_cases hc12 : cur ls = '&' ∧ peek ls 1 = '&'
                        · rw [if_pos hc12] at heq
                          have h1 := congrArg Prod.fst heq
                          have h2 := congrArg Prod.snd heq
                          simp only [] at h1 h2
                          subst h1
                          subst h2
                          exact span_ok_two _ p0 _ _ _ hwfs hle hc12.1 hc12.2 (by decide)
                        · rw [if_neg hc12] at heq
                          by_cases hc13 : cur ls = '|' ∧ peek ls 1 = '|'
                          · rw [if_pos hc13] at heq
                            have h1 := congrArg Prod.fst heq
                            have h2 := congrArg Prod.snd heq
                            simp only [] at h1 h2
                            subst h1
                            subst h2
                            exact span_ok_two _ p0 _ _ _ hwfs hle hc13.1 hc13.2 (by decide)
                          · rw [if_neg hc13] at heq
                            by_cases hc14 : cur ls = '<' ∧ peek ls 1 = '<'
                            · rw [if_pos hc14] at heq
                              have h1 := congrArg Prod.fst heq
                              have h2 := congrArg Prod.snd heq
                              simp only [] at h1 h2
                              subst h1
                              subst h2
                              exact span_ok_two _ p0 _ _ _ hwfs hle hc14.1 hc14.2 (by decide)
                            · rw [if_neg hc14] at heq
                              by_cases hc15 : cur ls = '>' ∧ peek ls 1 = '>'
                              · rw [if_pos hc15] at heq
                                have h1 := congrArg Prod.fst heq
                                have h2 := congrArg Prod.snd heq
                                simp only [] at h1 h2
                                subst h1
                                subst h2
                                exact span_ok_two _ p0 _ _ _ hwfs hle hc15.1 hc15.2 (by decide)
                              · rw [if_neg hc15] at heq
                                by_cases hc16 : cur ls = '-' ∧ peek ls 1 = '>'
                                · rw [if_pos hc16] at heq
                                  have h1 := congrArg Prod.fst heq
                                  have h2 := congrArg Prod.snd heq
                                  simp only [] at h1 h2
                                  subst h1
                                  subst h2
                                  exact span_ok_two _ p0 _ _ _ hwfs hle hc16.1 hc16.2 (by decide)
                                · rw [if_neg hc16] at heq
                                  by_cases hc17 : cur ls = '"'
                                  · rw [if_pos hc17] at heq
                                    have h1 := congrArg Prod.fst heq
                                    simp only [] at h1
                                    subst h1
                                    intro hh
                                    exact absurd rfl hh.2.1
                                  · rw [if_neg hc17] at heq
                                    by_cases hc18 : cur ls = '\x27'
                                    · rw [if_pos hc18] at heq
                                      have h1 := congrArg Prod.fst heq
                                      simp only [] at h1
                                      subst h1
                                      intro hh
                                      exact absurd rfl hh.2.2
                                    · rw [if_neg hc18] at heq
                                      by_cases hc19 : cur ls = '+'
                                      · rw [if_pos hc19] at heq
                                        have h1 := congrArg Prod.fst heq
                                        have h2 := congrArg Prod.snd heq
                                        simp only [] at h1 h2
                                        subst h1
                                        subst h2
                                        exact span_ok_one _ p0 _ _ hwfs hle hlt hc19
                                      · rw [if_neg hc19] at heq
                                        by_cases hc20 : cur ls = '-'
                                        · rw [if_pos hc20] at heq
                                          have h1 := congrArg Prod.fst heq
                                          have h2 := congrArg Prod.snd heq
                                          simp only [] at h1 h2
                                          subst h1
                                          subst h2
                                          exact span_ok_one _ p0 _ _ hwfs hle hlt hc20
                                        · rw [if_neg hc20] at heq
                                          by_cases hc21 : cur ls = '*'
                                          · rw [if_pos hc21] at heq
                                            have h1 := congrArg Prod.fst heq
                                            have h2 := congrArg Prod.snd heq
                                            simp only [] at h1 h2
                                            subst h1
                                            subst h2
                                            exact span_ok_one _ p0 _ _ hwfs hle hlt hc21
                                          · rw [if_neg hc21] at heq
                                            by_cases hc22 : cur ls = '/'
                                            · rw [if_pos hc22] at heq
                                              have h1 := congrArg Prod.fst heq
                                              have h2 := congrArg Prod.snd heq
                                              simp only [] at h1 h2
                                              subst h1
                                              subst h2
                                              exact span_ok_one _ p0 _ _ hwfs hle hlt hc22
                                            · rw [if_neg hc22] at heq
                                              by_cases hc23 : cur ls = '%'
                                              · rw [if_pos hc23] at heq
                                                have h1 := congrArg Prod.fst heq
                                                have h2 := congrArg Prod.snd heq
                                                simp only [] at h1 h2
                                                subst h1
                                                subst h2
                                                exact span_ok_one _ p0 _ _ hwfs hle hlt hc23
                                              · rw [if_neg hc23] at heq
                                                by_cases hc24 : cur ls = '='
                                                · rw [if_pos hc24] at heq
                                                  have h1 := congrArg Prod.fst heq
                                                  have h2 := congrArg Prod.snd heq
                                                  simp only [] at h1 h2
                                                  subst h1
                                                  subst h2
                                                  exact span_ok_one _ p0 _ _ hwfs hle hlt hc24
                                                · rw [if_neg hc24] at heq
                                                  by_cases hc25 : cur ls = '<'
                                                  · rw [if_pos hc25] at heq
                                                    have h1 := congrArg Prod.fst heq
                                                    have h2 := congrArg Prod.snd heq
                                                    simp only [] at h1 h2
                                                    subst h1
                                                    subst h2
                                                    exact span_ok_one _ p0 _ _ hwfs hle hlt hc25
                                                  · rw [if_neg hc25] at heq
                                                    by_cases hc26 : cur ls = '>'
                                                    · rw [if_pos hc26] at heq
                                                      have h1 := congrArg Prod.fst heq
                                                      have h2 := congrArg Prod.snd heq
                                                      simp only [] at h1 h2
                                                      subst h1
                                                      subst h2
                                                      exact span_ok_one _ p0 _ _ hwfs hle hlt hc26
                                                    · rw [if_neg hc26] at heq
                                                      by_cases hc27 : cur ls = '!'
                                                      · rw [if_pos hc27] at heq
                                                        have h1 := congrArg Prod.fst heq
                                                        have h2 := congrArg Prod.snd heq
                                                        simp only [] at h1 h2
                                                        subst h1
                                                        subst h2
                                                        exact span_ok_one _ p0 _ _ hwfs hle hlt hc27
                                                      · rw [if_neg hc27] at heq
                                                        by_cases hc28 : cur ls = '&'
                                                        · rw [if_pos hc28] at heq
                                                          have h1 := congrArg Prod.fst heq
                                                          have h2 := congrArg Prod.snd heq
                                                          simp only [] at h1 h2
                                                          subst h1
                                                          subst h2
                                                          exact span_ok_one _ p0 _ _ hwfs hle hlt hc28
                                                        · rw [if_neg hc28] at heq
                                                          by_cases hc29 : cur ls = '|'
                                                          · rw [if_pos hc29] at heq
                                                            have h1 := congrArg Prod.fst heq
                                                            have h2 := congrArg Prod.snd heq
                                                            simp only [] at h1 h2
                                                            subst h1
                                                            subst h2
                                                            exact span_ok_one _ p0 _ _ hwfs hle hlt hc29
                                                          · rw [if_neg hc29] at heq
                                                            by_cases hc30 : cur ls = '^'
                                                            · rw [if_pos hc30] at heq
                                                              have h1 := congrArg Prod.fst heq
                                                              have h2 := congrArg Prod.snd heq
                                                              simp only [] at h1 h2
                                                              subst h1
                                                              subst h2
                                                              exact span_ok_one _ p0 _ _ hwfs hle hlt hc30
                                                            · rw [if_neg hc30] at heq
                                                              by_cases hc31 : cur ls = '~'
                                                              · rw [if_pos hc31] at heq
                                                                have h1 := congrArg Prod.fst heq
                                                                have h2 := congrArg Prod.snd heq
                                                                simp only [] at h1 h2
                                                                subst h1
                                                                subst h2
                                                                exact span_ok_one _ p0 _ _ hwfs hle hlt hc31
                                                              · rw [if_neg hc31] at heq
                                                                by_cases hc32 : cur ls = '.'
                                                                · rw [if_pos hc32] at heq
                                                                  have h1 := congrArg Prod.fst heq
                                                                  have h2 := congrArg Prod.snd heq
                                                                  simp only [] at h1 h2
                                                                  subst h1
                                                                  subst h2
                                                                  exact span_ok_one _ p0 _ _ hwfs hle hlt hc32
                                                                · rw [if_neg hc32] at heq
                                                                  by_cases hc33 : cur ls = ';'
                                                                  · rw [if_pos hc33] at heq
                                                                    have h1 := congrArg Prod.fst heq
                                                                    have h2 := congrArg Prod.snd heq
                                                                    simp only [] at h1 h2
                                                                    subst h1
                                                                    subst h2
                                                                    exact span_ok_one _ p0 _ _ hwfs hle hlt hc33
                                                                  · rw [if_neg hc33] at heq
                                                                    by_cases hc34 : cur ls = ':'
                                                                    · rw [if_pos hc34] at heq
                                                                      have h1 := congrArg Prod.fst heq
                                                                      have h2 := congrArg Prod.snd heq
                                                                      simp only [] at h1 h2
                                                                      subst h1
                                                                      subst h2
                                                                      exact span_ok_one _ p0 _ _ hwfs hle hlt hc34
                                                                    · rw [if_neg hc34] at heq
                                                                      by_cases hc35 : cur ls = ','
                                                                      · rw [if_pos hc35] at heq
                                                                        have h1 := congrArg Prod.fst heq
                                                                        have h2 := congrArg Prod.snd heq
                                                                        simp only [] at h1 h2
                                                                        subst h1
                                                                        subst h2
                                                                        exact span_ok_one _ p0 _ _ hwfs hle hlt hc35
                                                                      · rw [if_neg hc35] at heq
                                                                        by_cases hc36 : cur ls = '('
                                                                        · rw [if_pos hc36] at heq
                                                                          have h1 := congrArg Prod.fst heq
                                                                          have h2 := congrArg Prod.snd heq
                                                                          simp only [] at h1 h2
                                                                          subst h1
                                                                          subst h2
                                                                          exact span_ok_one _ p0 _ _ hwfs hle hlt hc36
                                                                        · rw [if_neg hc36] at heq
                                                                          by_cases hc37 : cur ls = ')'
                                                                          · rw [if_pos hc37] at heq
                                                                            have h1 := congrArg Prod.fst heq
                                                                            have h2 := congrArg Prod.snd heq
                                                                            simp only [] at h1 h2
                                                                            subst h1
                                                                            subst h2
                                                                            exact span_ok_one _ p0 _ _ hwfs hle hlt hc37
                                                                          · rw [if_neg hc37] at heq
                                                                            by_cases hc38 : cur ls = '\x7b'
                                                                            · rw [if_pos hc38] at heq
                                                                              have h1 := congrArg Prod.fst heq
                                                                              have h2 := congrArg Prod.snd heq
                                                                              simp only [] at h1 h2
                                                                              subst h1
                                                                              subst h2
                                                                              exact span_ok_one _ p0 _ _ hwfs hle hlt hc38
                                                                            · rw [if_neg hc38] at heq
                                                                              by_cases hc39 : cur ls = '\x7d'
                                                                              · rw [if_pos hc39] at heq
                                                                                have h1 := congrArg Prod.fst heq
                                                                                have h2 := congrArg Prod.snd heq
                                                                                simp only [] at h1 h2
                                                                                subst h1
                                                                                subst h2
                                                                                exact span_ok_one _ p0 _ _ hwfs hle hlt hc39
                                                                              · rw [if_neg hc39] at heq
                                                                                by_cases hc40 : cur ls = '['
                                                                                · rw [if_pos hc40] at heq
                                                                                  have h1 := congrArg Prod.fst heq
                                                                                  have h2 := congrArg Prod.snd heq
                                                                                  simp only [] at h1 h2
                                                                                  subst h1
                                                                                  subst h2
                                                                                  exact span_ok_one _ p0 _ _ hwfs hle hlt hc40
                                                                                · rw [if_neg hc40] at heq
                                                                                  by_cases hc41 : cur ls = ']'
                                                                                  · rw [if_pos hc41] at heq
                                                                                    have h1 := congrArg Prod.fst heq
                                                                                    have h2 := congrArg Prod.snd heq
                                                                                    simp only [] at h1 h2
                                                                                    subst h1
                                                                                    subst h2
                                                                                    exact span_ok_one _ p0 _ _ hwfs hle hlt hc41
                                                                                  · rw [if_neg hc41] at heq
                                                                                    by_cases hc42 : cur ls = '?'
                                                                                    · rw [if_pos hc42] at heq
                                                                                      have h1 := congrArg Prod.fst heq
                                                                                      have h2 := congrArg Prod.snd heq
                                                                                      simp only [] at h1 h2
                                                                                      subst h1
                                                                                      subst h2
                                                                                      exact span_ok_one _ p0 _ _ hwfs hle hlt hc42
                                                                                    · rw [if_neg hc42] at heq
                                                                                      by_cases hc43 : cur ls = '\n' ∧ ls.track_newlines = true
                                                                                      · rw [if_pos hc43] at heq
                                                                                        have h1 := congrArg Prod.fst heq
                                                                                        have h2 := congrArg Prod.snd heq
                                                                                        simp only [] at h1 h2
                                                                                        subst h1
                                                                                        subst h2
                                                                                        exact span_ok_one _ p0 _ _ hwfs hle hlt hc43.1
                                                                                      · rw [if_neg hc43] at heq
                                                                                        by_cases hc44 : (cur ls).isDigit = true
                                                                                        · rw [if_pos hc44] at heq
                                                                                          have h1 := congrArg Prod.fst heq
                                                                                          have h2 := congrArg Prod.snd heq
                                                                                          simp only [] at h1 h2
                                                                                          subst h1
                                                                                          subst h2
                                                                                          exact span_ok_number fuel _ p0 _ hwfs hb hle hlt hc44 hf
                                                                                        · rw [if_neg hc44] at heq
                                                                                          by_cases hc45 : is_valid_identifier_start (cur ls) = true
                                                                                          · rw [if_pos hc45] at heq
                                                                                            have h1 := congrArg Prod.fst heq
                                                                                            have h2 := congrArg Prod.snd heq
                                                                                            simp only [] at h1 h2
                                                                                            subst h1
                                                                                            subst h2
                                                                                            exact span_ok_ident fuel _ p0 _ hwfs hb hle hlt hc45 hf
                                                                                          · rw [if_neg hc45] at heq
                                                                                            have h1 := congrArg Prod.fst heq
                                                                                            have h2 := congrArg Prod.snd heq
                                                                                            simp only [] at h1 h2
                                                                                            subst h1
                                                                                            subst h2
                                                                                            exact span_ok_one _ p0 _ _ hwfs hle hlt rfl

/-- The span property of next_token itself: whatever branch ran, a
non-EOF, non-string, non-char token's lexeme equals its consumed
slice, the source is untouched and the scan stays in bounds.  The fuel
bound is the one every caller satisfies (length - position < fuel). -/
theorem next_token_span (fuel : Nat) (lx : lexer)
    (hwf : lx.length = lx.source.length) (hb : lx.position ≤ lx.length)
    (hfuel : lx.length - lx.position < fuel) (t : token) (lx' : lexer)
    (heq : next_token fuel lx = (t, lx')) :
    span_ok lx.source lx.position t lx' := by
  induction fuel generalizing lx t lx' with
  | zero => omega
  | succ fuel ih =>
    have hsrc := skip_whitespace_source fuel lx
    have hlen := skip_whitespace_length fuel lx
    have hple := skip_whitespace_pos_le fuel lx
    have hbnd := skip_whitespace_pos_bound fuel lx hb
    have hwfs : (skip_whitespace fuel lx).length =
        (skip_whitespace fuel lx).source.length := by
      rw [hlen, hsrc]; exact hwf
    rw [show lx.source = (skip_whitespace fuel lx).source from hsrc.symm]
    rw [next_token] at heq
    try simp only [] at heq
    split at heq
    · have h1 := congrArg Prod.fst heq
      have h2 := congrArg Prod.snd heq
      simp only [] at h1 h2
      subst h1
      subst h2
      intro hh
      exact absurd rfl hh.1
    · rename_i hge
      have hlt : (skip_whitespace fuel lx).position <
          (skip_whitespace fuel lx).length := by omega
      split at heq
      · -- line comment: recurse
        rename_i hcl
        have h2lt : (skip_whitespace fuel lx).position + 1 <
            (skip_whitespace fuel lx).length :=
          peek_eq_imp_lt _ '/' hcl.2 (by decide)
        have hs2 : (skip_line_comment fuel (skip_whitespace fuel lx)).source =
            (skip_whitespace fuel lx).source := by
          unfold skip_line_comment
          rw [skip_line_comment_loop_source, advance_source, advance_source]
        have hl2 : (skip_line_comment fuel (skip_whitespace fuel lx)).length =
            (skip_whitespace fuel lx).length := by
          unfold skip_line_comment
          rw [skip_line_comment_loop_length, advance_length, advance_length]
        have hp2 : (skip_whitespace fuel lx).position + 2 ≤
            (skip_line_comment fuel (skip_whitespace fuel lx)).position := by
          unfold skip_line_comment
          calc (skip_whitespace fuel lx).position + 2
              = (advance (advance (skip_whitespace fuel lx))).position :=
                (advance2_pos _ h2lt).symm
            _ ≤ _ := skip_line_comment_loop_pos_le fuel _
        have hb2 : (skip_line_comment fuel (skip_whitespace fuel lx)).position ≤
            (skip_line_comment fuel (skip_whitespace fuel lx)).length := by
          unfold skip_line_comment
          exact skip_line_comment_loop_pos_bound fuel _
            (advance_pos_bound _ (advance_pos_bound _ hbnd))
        have hwf2 : (skip_line_comment fuel (skip_whitespace fuel lx)).length =
            (skip_line_comment fuel (skip_whitespace fuel lx)).source.length := by
          rw [hl2, hs2]; exact hwfs
        have hfl2 : (skip_line_comment fuel (skip_whitespace fuel lx)).length -
            (skip_line_comment fuel (skip_whitespace fuel lx)).position < fuel := by
          omega
        have hmain := ih (skip_line_comment fuel (skip_whitespace fuel lx))
          hwf2 hb2 hfl2 t lx' heq
        rw [hs2] at hmain
        exact span_ok_mono _ _ _ _ _ hmain (by omega)
      · rename_i hncl
        split at heq
        · -- block comment: recurse
          rename_i hcb
          have h2lt : (skip_whitespace fuel lx).position + 1 <
              (skip_whitespace fuel lx).length :=
            peek_eq_imp_lt _ '*' hcb.2 (by decide)
          have hs2 : (skip_block_comment fuel (skip_whitespace fuel lx)).source =
              (skip_whitespace fuel lx).source := by
            unfold skip_block_comment
            rw [skip_block_comment_loop_source, advance_source, advance_source]
          have hl2 : (skip_block_comment fuel (skip_whitespace fuel lx)).length =
              (skip_whitespace fuel lx).length := by
            unfold skip_block_comment
            rw [skip_block_comment_loop_length, advance_length, advance_length]
          have hp2 : (skip_whitespace fuel lx).position + 2 ≤
              (skip_block_comment fuel (skip_whitespace fuel lx)).position := by
            unfold skip_block_comment
            calc (skip_whitespace fuel lx).position + 2
                = (advance (advance (skip_whitespace fuel lx))).position :=
                  (advance2_pos _ h2lt).symm
              _ ≤ _ := skip_block_comment_loop_pos_le fuel _
          have hb2 : (skip_block_comment fuel (skip_whitespace fuel lx)).position ≤
              (skip_block_comment fuel (skip_whitespace fuel lx)).length := by
            unfold skip_block_comment
            exact skip_block_comment_loop_pos_bound fuel _
              (advance_pos_bound _ (advance_pos_bound _ hbnd))
          have hwf2 : (skip_block_comment fuel (skip_whitespace fuel lx)).length =
              (skip_block_comment fuel (skip_whitespace fuel lx)).source.length := by
            rw [hl2, hs2]; exact hwfs
          have hfl2 : (skip_block_comment fuel (skip_whitespace fuel lx)).length -
              (skip_block_comment fuel (skip_whitespace fuel lx)).position < fuel := by
            omega
          have hmain := ih (skip_block_comment fuel (skip_whitespace fuel lx))
            hwf2 hb2 hfl2 t lx' heq
          rw [hs2] at hmain
          exact span_ok_mono _ _ _ _ _ hmain (by omega)
        · rename_i hncb
          exact next_token_dispatch_span fuel _ lx.position hwfs hbnd hple hlt
            (by omega) t lx' heq

/-- One full scan (the driver's token loop): each token is paired with
the lexer position before and after its next_token call. -/
def tokenize_spans (fuel : Nat) (lx : lexer) : List (token × Nat × Nat) :=
  match fuel with
  | 0 => []
  | fuel + 1 =>
    match next_token (lx.length + 1) lx with
    | (t, lx') =>
      if t.type = .TOKEN_EOF then [(t, lx.position, lx'.position)]
      else (t, lx.position, lx'.position) :: tokenize_spans fuel lx'

/-- Rebuild the input from the scanned tokens: for every non-EOF token
the interstitial bytes skipped before its lexeme (recovered from the
span and the lexeme length) followed by the lexeme itself; the bytes
from the final EOF's start position are the trailing interstitial. -/
def reconstruct (src : List Char) : List (token × Nat × Nat) → List Char
  | [] => []
  | (t, p0, p2) :: rest =>
    if t.type = .TOKEN_EOF then src.drop p0
    else
      (src.drop p0).take (p2 - (t.value.getD []).length - p0) ++
        t.value.getD [] ++ reconstruct src rest

theorem span_tile (s : List Char) (p0 p1 p2 : Nat) (h01 : p0 ≤ p1)
    (h12 : p1 ≤ p2) :
    (s.drop p0).take (p1 - p0) ++ (s.drop p1).take (p2 - p1) =
      (s.drop p0).take (p2 - p0) := by
  have hd : s.drop p1 = (s.drop p0).drop (p1 - p0) := by
    rw [List.drop_drop]
    congr 1
    omega
  rw [hd, ← List.take_add]
  congr 1
  omega

/-- Telescoping round trip: from any in-bounds state, the interstitial
bytes and lexemes of the remaining scan concatenate back to the
remaining input, provided the scan meets no string or char literal. -/
theorem reconstruct_tokenize (fuel : Nat) (lx : lexer)
    (hwf : lx.length = lx.source.length) (hb : lx.position ≤ lx.length)
    (hfuel : lx.length - lx.position < fuel)
    (h : ∀ e ∈ tokenize_spans fuel lx,
      e.1.type ≠ .TOKEN_STRING ∧ e.1.type ≠ .TOKEN_CHAR) :
    reconstruct lx.source (tokenize_spans fuel lx) =
      lx.source.drop lx.position := by
  induction fuel generalizing lx with
  | zero => omega
  | succ fuel ih =>
    rcases hnt : next_token (lx.length + 1) lx with ⟨t, lx'⟩
    rw [tokenize_spans, hnt] at h ⊢
    try simp only [] at h ⊢
    have hspan := next_token_span (lx.length + 1) lx hwf hb (by omega) t lx' hnt
    by_cases hEOF : t.type = .TOKEN_EOF
    · rw [if_pos hEOF] at h ⊢
      rw [reconstruct, if_pos hEOF]
    · rw [if_neg hEOF] at h ⊢
      have hhead := h (t, lx.position, lx'.position) (List.mem_cons_self _ _)
      have hrest := fun e he => h e (List.mem_cons_of_mem _ he)
      obtain ⟨hsrc', hlen', p1, hp01, hp12, hp2len, hval⟩ :=
        hspan ⟨hEOF, hhead.1, hhead.2⟩
      have hwf' : lx'.length = lx'.source.length := by rw [hsrc']; exact hlen'
      have hb' : lx'.position ≤ lx'.length := by rw [hlen']; exact hp2len
      have hfuel' : lx'.length - lx'.position < fuel := by omega
      have hih := ih lx' hwf' hb' hfuel' hrest
      rw [hsrc'] at hih
      rw [reconstruct, if_neg hEOF, hval]
      have hlex : ((lx.source.drop p1).take (lx'.position - p1)).length =
          lx'.position - p1 := by
        rw [List.length_take, List.length_drop]
        omega
      simp only [Option.getD_some]
      rw [hlex, hih]
      have harith : lx'.position - (lx'.position - p1) - lx.position =
          p1 - lx.position := by omega
      rw [harith]
      rw [show lx.source.drop lx'.position =
          ((lx.source.drop lx.position).drop (lx'.position - lx.position)) from by
        rw [List.drop_drop]; congr 1; omega]
      rw [span_tile lx.source lx.position p1 lx'.position hp01 (by omega),
        List.take_append_drop]

/-- C7 (amended): for every source string whose token stream contains
no TOKEN_INVALID — and, which the original sentence misses, no
TOKEN_STRING or TOKEN_CHAR — concatenating the lexemes of the emitted
non-EOF tokens interleaved with the original interstitial bytes
(whitespace and comments) reproduces the input exactly.  String and
char tokens must be excluded: read_string drops the surrounding
quotes, and read_char both drops the quotes and substitutes the
escape, so their lexemes are not the consumed text. -/
theorem c7_lexemes_round_trip (src : List Char)
    (h : ∀ e ∈ tokenize_spans (src.length + 1) (create_lexer src),
      e.1.type ≠ .TOKEN_INVALID ∧ e.1.type ≠ .TOKEN_STRING ∧
      e.1.type ≠ .TOKEN_CHAR) :
    reconstruct src (tokenize_spans (src.length + 1) (create_lexer src)) =
      src := by
  have hmain := reconstruct_tokenize (src.length + 1) (create_lexer src) rfl
    (Nat.zero_le _) (by show src.length - 0 < src.length + 1; omega)
    (fun e he => ⟨(h e he).2.1, (h e he).2.2⟩)
  simpa [create_lexer] using hmain

/-- The hypothesis of c7_lexemes_round_trip is satisfiable: a line of
real input with a keyword, identifier, operators, a number, and a
trailing comment scans clean and reconstructs exactly. -/
theorem c7_lexemes_round_trip_witness :
    (∀ e ∈ tokenize_spans ("i32 x = 42; // ok".data.length + 1)
        (create_lexer "i32 x = 42; // ok".data),
      e.1.type ≠ .TOKEN_INVALID ∧ e.1.type ≠ .TOKEN_STRING ∧
      e.1.type ≠ .TOKEN_CHAR) ∧
    reconstruct "i32 x = 42; // ok".data
      (tokenize_spans ("i32 x = 42; // ok".data.length + 1)
        (create_lexer "i32 x = 42; // ok".data)) = "i32 x = 42; // ok".data :=
  ⟨by decide, c7_lexemes_round_trip _ (by decide)⟩

/-- C7 counterexample: the four-byte input `"hi"` (a quoted string
literal) produces a token stream free of TOKEN_INVALID, yet no
interleaving of lexemes with interstitial bytes reproduces the input:
the string token's lexeme is `hi` without the quotes, so the two
quote bytes of the input appear in no lexeme and the reconstruction
differs from the input. -/
theorem c7_string_literal_breaks_round_trip :
    (∀ e ∈ tokenize_spans 5 (create_lexer ['"', 'h', 'i', '"']),
      e.1.type ≠ .TOKEN_INVALID) ∧
    reconstruct ['"', 'h', 'i', '"']
      (tokenize_spans 5 (create_lexer ['"', 'h', 'i', '"'])) ≠
      ['"', 'h', 'i', '"'] := by decide

/-! ## Label distinctness (claim C10) -/

/-- Decimal decoding, inverse to natToDec on its image. -/
def decode_dec (s : List Char) : Nat :=
  s.foldl (fun a c => a * 10 + (c.toNat - 48)) 0

theorem digitChar_toNat (m : Nat) (h : m < 10) : (digitChar m).toNat = 48 + m := by
  interval_cases m <;> decide

theorem natToDecGo_decode (fuel n : Nat) (h : n < fuel) :
    decode_dec (natToDecGo fuel n) = n := by
  induction fuel generalizing n with
  | zero => omega
  | succ fuel ih =>
    rw [natToDecGo]
    split
    · rename_i h10
      simp [decode_dec, digitChar_toNat n h10]
    · rename_i h10
      have hdiv : n / 10 < fuel := by omega
      rw [decode_dec, List.foldl_append]
      have hrec := ih (n / 10) hdiv
      rw [decode_dec] at hrec
      rw [hrec]
      simp [digitChar_toNat (n % 10) (by omega)]
      omega

theorem natToDec_inj (a b : Nat) (h : natToDec a = natToDec b) : a = b := by
  have ha := natToDecGo_decode (a + 1) a (by omega)
  have hb := natToDecGo_decode (b + 1) b (by omega)
  rw [natToDec] at h
  rw [natToDec] at h
  rw [← ha, ← hb, h]

theorem natToDecGo_digits (fuel n : Nat) :
    ∀ c ∈ natToDecGo fuel n, 48 ≤ c.toNat ∧ c.toNat ≤ 57 := by
  induction fuel generalizing n with
  | zero => intro c hc; simp [natToDecGo] at hc
  | succ fuel ih =>
    intro c hc
    rw [natToDecGo] at hc
    split at hc
    · rename_i h10
      simp at hc
      subst hc
      rw [digitChar_toNat n h10]
      omega
    · rcases List.mem_append.mp hc with hm | hm
      · exact ih (n / 10) c hm
      · simp at hm
        subst hm
        rw [digitChar_toNat (n % 10) (by omega)]
        omega

/-- If two prefix-plus-digits strings agree and both prefixes end in
an underscore while the digit parts contain none, the prefixes and the
digit parts agree separately. -/
theorem append_digits_inj (q1 q2 d1 d2 : List Char)
    (hu1 : q1.getLast? = some '_') (hu2 : q2.getLast? = some '_')
    (hd1 : ∀ c ∈ d1, 48 ≤ c.toNat ∧ c.toNat ≤ 57)
    (hd2 : ∀ c ∈ d2, 48 ≤ c.toNat ∧ c.toNat ≤ 57)
    (h : q1 ++ d1 = q2 ++ d2) : q1 = q2 ∧ d1 = d2 := by
  rcases List.append_eq_append_iff.mp h with ⟨a, ha1, ha2⟩ | ⟨a, ha1, ha2⟩
  · match a with
    | [] =>
      simp at ha1 ha2
      exact ⟨ha1.symm, ha2⟩
    | x :: rest =>
      exfalso
      have hlast : ('_' : Char) ∈ (x :: rest : List Char) := by
        apply List.mem_of_mem_getLast?
        rw [← List.getLast?_append_of_ne_nil q1 (by simp), ← ha1, hu2]
        simp
      have := hd1 '_' (by rw [ha2]; exact List.mem_append_left _ hlast)
      revert this
      decide
  · match a with
    | [] =>
      simp at ha1 ha2
      exact ⟨ha1, ha2.symm⟩
    | x :: rest =>
      exfalso
      have hlast : ('_' : Char) ∈ (x :: rest : List Char) := by
        apply List.mem_of_mem_getLast?
        rw [← List.getLast?_append_of_ne_nil q2 (by simp), ← ha1, hu1]
        simp
      have := hd2 '_' (by rw [ha2]; exact List.mem_append_left _ hlast)
      revert this
      decide

/-- The label prefixes the emitter actually passes to generate_label
(generate_if/while/for/switch/ternary statements). -/
def used_label_prefixes : List (List Char) :=
  ["else_".data, "endif_".data, "loop_".data, "endloop_".data,
   "for_loop_".data, "for_condition_".data, "for_end_".data,
   "ternary_false_".data, "ternary_end_".data, "case_".data,
   "switch_end_".data, "switch_default_".data]

theorem used_prefixes_underscore :
    ∀ p ∈ used_label_prefixes, p.getLast? = some '_' := by decide

/-- C10: generate_label numbers every prefix from the one shared
label_counter, so two calls made at different counter values return
textually distinct labels across all prefixes the emitter uses — no
used prefix equals another used prefix followed by digits, because
every used prefix ends in an underscore and the rendered counter holds
only digits.  The length bounds discharge the snprintf truncation at
63 characters, which is never reached (the longest prefix plus a
counter within any feasible run stays far below it). -/
theorem c10_labels_distinct (g1 g2 : code_generator) (p1 p2 : List Char)
    (hp1 : p1 ∈ used_label_prefixes) (hp2 : p2 ∈ used_label_prefixes)
    (hne : g1.label_counter ≠ g2.label_counter)
    (hl1 : (p1 ++ natToDec g1.label_counter).length ≤ 63)
    (hl2 : (p2 ++ natToDec g2.label_counter).length ≤ 63) :
    (generate_label g1 p1).1 ≠ (generate_label g2 p2).1 := by
  intro heq
  simp only [generate_label] at heq
  rw [List.take_of_length_le hl1, List.take_of_length_le hl2] at heq
  obtain ⟨hpp, hdd⟩ := append_digits_inj p1 p2 _ _
    (used_prefixes_underscore p1 hp1) (used_prefixes_underscore p2 hp2)
    (natToDecGo_digits _ _) (natToDecGo_digits _ _) heq
  exact hne (natToDec_inj _ _ hdd)

/-- The hypotheses of c10_labels_distinct are satisfiable: the very
first two labels of a generator run, else_0 and endif_1 as used by
generate_if_statement, come out distinct. -/
theorem c10_labels_distinct_witness :
    "else_".data ∈ used_label_prefixes ∧
    "endif_".data ∈ used_label_prefixes ∧
    (create_code_generator .ARCH_X86_64 .OPT_NONE).label_counter ≠
      (generate_label (create_code_generator .ARCH_X86_64 .OPT_NONE)
        "else_".data).2.label_counter ∧
    (generate_label (create_code_generator .ARCH_X86_64 .OPT_NONE)
        "else_".data).1 ≠
      (generate_label
        (generate_label (create_code_generator .ARCH_X86_64 .OPT_NONE)
          "else_".data).2 "endif_".data).1 :=
  ⟨by decide, by decide, by decide,
   c10_labels_distinct _ _ _ _ (by decide) (by decide) (by decide)
     (by decide) (by decide)⟩
